import Mathlib

/-!
Verification development for the Syntax Brawlers combat core.

The Python sources are shallowly embedded: floats are modelled as rationals
(all arithmetic in the combat core is exact on the values that occur),
Python ints as integers, frame counters as naturals, and every stateful
method becomes a pure function from the old record to the new record
(together with its return value).  Randomness (`random.randint`,
`random.random`, `random.choice`) is modelled by passing the drawn value
explicitly as an argument, one per draw site.
-/

namespace SB

/-! ### Constants from config.py -/

def STAMINA_REGEN_RATE : ℚ := 5
def STAMINA_REGEN_IDLE_BONUS : ℚ := 8
def EXHAUSTION_THRESHOLD : ℚ := 20
def CRIT_MULTIPLIER : ℚ := 2
def COUNTER_MULTIPLIER : ℚ := 3/2
def BLOCK_REDUCTION : ℚ := 7/10
def EXHAUSTION_DAMAGE_PENALTY : ℚ := 7/10
def HEAD_DAMAGE_MULT : ℚ := 3/2
def BODY_DAMAGE_MULT : ℚ := 1
def LEGS_DAMAGE_MULT : ℚ := 4/5
def KNOCKBACK_FORCE : ℚ := 150
def HIT_STUN_LIGHT : ℚ := 1/5
def HIT_STUN_HEAVY : ℚ := 2/5
def BLOCK_STUN : ℚ := 3/20
def RING_LEFT : ℚ := 150
def RING_RIGHT : ℚ := 1130
def RING_FLOOR_Y : ℚ := 480
def FIGHTER_WIDTH : ℚ := 80
def FIGHTER1_START_X : ℚ := 400
def FIGHTER2_START_X : ℚ := 880
def MOVEMENT_SPEED : ℚ := 300
def ADVANCE_SPEED : ℚ := 400
def RETREAT_SPEED : ℚ := 250
def SHAKE_LIGHT : ℚ := 3
def SHAKE_MEDIUM : ℚ := 6
def SHAKE_HEAVY : ℚ := 12
def CLINCH_RANGE : ℚ := 60
def PUNCH_RANGE : ℚ := 140
def MEDIUM_RANGE : ℚ := 200
def SAFE_RANGE : ℚ := 300
def DEFAULT_MAX_HEALTH : ℤ := 100
def DEFAULT_MAX_STAMINA : ℤ := 100
def DEFAULT_POWER : ℚ := 1
def DEFAULT_SPEED : ℚ := 1
def DEFAULT_DEFENSE : ℚ := 1

/-- Python `int(q)` truncates toward zero. -/
def pytrunc (q : ℚ) : ℤ := if 0 ≤ q then ⌊q⌋ else -⌊-q⌋

/-! ### Enums from config.py -/

inductive HitZone
  | head
  | body
  | legs
deriving DecidableEq, Repr

inductive ActionType
  | jab
  | cross
  | hook
  | uppercut
  | block
  | dodge
  | clinch
  | idle
deriving DecidableEq, Repr

/-- config.ActionData (the easing field is presentation-only and carried nowhere
into combat logic, so it is omitted). -/
structure ActionData where
  damage_min : ℤ
  damage_max : ℤ
  stamina_cost : ℚ
  hit_rate : ℚ
  range : ℤ
  startup_frames : ℕ
  active_frames : ℕ
  recovery_frames : ℕ
  move_distance : ℤ
  crit_bonus : ℚ := 0
  stun_chance : ℚ := 0
  breaks_block : Bool := false
  can_chain : ℕ := 1
deriving DecidableEq, Repr

/-- config.ACTION_DATA.  The Python dict has an entry for every ActionType
member, so it is a total function here. -/
def ACTION_DATA : ActionType → ActionData
  | .jab => { damage_min := 8, damage_max := 12, stamina_cost := 8, hit_rate := 9/10,
              range := 100, startup_frames := 3, active_frames := 2, recovery_frames := 4,
              move_distance := 60, can_chain := 3 }
  | .cross => { damage_min := 18, damage_max := 25, stamina_cost := 18, hit_rate := 3/4,
                range := 120, startup_frames := 5, active_frames := 3, recovery_frames := 6,
                move_distance := 80, breaks_block := true }
  | .hook => { damage_min := 28, damage_max := 38, stamina_cost := 28, hit_rate := 3/5,
               range := 90, startup_frames := 7, active_frames := 3, recovery_frames := 8,
               move_distance := 70, crit_bonus := 1/4, stun_chance := 1/5 }
  | .uppercut => { damage_min := 35, damage_max := 45, stamina_cost := 35, hit_rate := 1/2,
                   range := 80, startup_frames := 9, active_frames := 4, recovery_frames := 10,
                   move_distance := 50, crit_bonus := 3/20, stun_chance := 7/20 }
  | .block => { damage_min := 0, damage_max := 0, stamina_cost := 12, hit_rate := 1,
                range := 0, startup_frames := 2, active_frames := 30, recovery_frames := 4,
                move_distance := 0 }
  | .dodge => { damage_min := 0, damage_max := 0, stamina_cost := 15, hit_rate := 7/10,
                range := 0, startup_frames := 3, active_frames := 8, recovery_frames := 5,
                move_distance := -80 }
  | .clinch => { damage_min := 0, damage_max := 0, stamina_cost := 5, hit_rate := 4/5,
                 range := 60, startup_frames := 4, active_frames := 20, recovery_frames := 10,
                 move_distance := 40 }
  | .idle => { damage_min := 0, damage_max := 0, stamina_cost := 0, hit_rate := 0,
               range := 0, startup_frames := 0, active_frames := 0, recovery_frames := 0,
               move_distance := 0 }

/-- `ACTION_DATA.get(a)` in Python: every ActionType is a key, so this is
always `some`. -/
def ACTION_DATA_get (a : ActionType) : Option ActionData := some (ACTION_DATA a)

/-! ### fighters/stats.py -/

/-- stats.FighterStats.  Python floats are rationals; the cumulative integer
statistics are integers. -/
structure FighterStats where
  power : ℚ := DEFAULT_POWER
  speed : ℚ := DEFAULT_SPEED
  defense : ℚ := DEFAULT_DEFENSE
  max_health : ℤ := DEFAULT_MAX_HEALTH
  max_stamina : ℤ := DEFAULT_MAX_STAMINA
  health : ℚ := (DEFAULT_MAX_HEALTH : ℚ)
  stamina : ℚ := (DEFAULT_MAX_STAMINA : ℚ)
  is_blocking : Bool := false
  is_exhausted : Bool := false
  is_stunned : Bool := false
  is_invulnerable : Bool := false
  stun_timer : ℚ := 0
  invuln_timer : ℚ := 0
  total_damage_dealt : ℤ := 0
  total_damage_taken : ℤ := 0
  hits_landed : ℤ := 0
  hits_taken : ℤ := 0
  blocks_successful : ℤ := 0
  dodges_successful : ℤ := 0
  combo_count : ℤ := 0
  max_combo : ℤ := 0
deriving DecidableEq, Repr

namespace FighterStats

/-- FighterStats.update: stamina regeneration, exhaustion recomputation and
timer countdowns. -/
def update (s : FighterStats) (dt : ℚ) (is_idle : Bool) : FighterStats :=
  let regen_rate := STAMINA_REGEN_RATE + (if is_idle then STAMINA_REGEN_IDLE_BONUS else 0)
  let s := { s with stamina := min (s.max_stamina : ℚ) (s.stamina + regen_rate * dt) }
  let s := { s with is_exhausted := decide (s.stamina < EXHAUSTION_THRESHOLD) }
  let s : FighterStats :=
    if s.stun_timer > 0 then
      let t := s.stun_timer - dt
      { s with stun_timer := t, is_stunned := if t ≤ 0 then false else s.is_stunned }
    else s
  let s : FighterStats :=
    if s.invuln_timer > 0 then
      let t := s.invuln_timer - dt
      { s with invuln_timer := t, is_invulnerable := if t ≤ 0 then false else s.is_invulnerable }
    else s
  s

/-- FighterStats.take_damage.  Returns the updated stats and the actual
damage dealt. -/
def take_damage (s : FighterStats) (base_damage : ℚ)
    (is_crit : Bool := false) (is_counter : Bool := false) : FighterStats × ℚ :=
  if s.is_invulnerable then (s, 0)
  else
    let damage := base_damage
    let damage := if is_crit then damage * CRIT_MULTIPLIER else damage
    let damage := if is_counter then damage * COUNTER_MULTIPLIER else damage
    let damage := damage / s.defense
    let p : ℚ × FighterStats :=
      if s.is_blocking then
        (damage * (1 - BLOCK_REDUCTION), { s with blocks_successful := s.blocks_successful + 1 })
      else (damage, s)
    let damage := p.1
    let s := p.2
    let actual_damage := min damage s.health
    let s := { s with health := max 0 (s.health - actual_damage) }
    let s := { s with
      total_damage_taken := s.total_damage_taken + pytrunc actual_damage,
      hits_taken := s.hits_taken + 1,
      combo_count := 0 }
    (s, actual_damage)

/-- FighterStats.use_stamina.  Partial consumption: with positive but
insufficient stamina, everything left is spent and True is returned. -/
def use_stamina (s : FighterStats) (amount : ℚ) : FighterStats × Bool :=
  if s.stamina ≥ amount then ({ s with stamina := s.stamina - amount }, true)
  else if s.stamina > 0 then ({ s with stamina := 0 }, true)
  else (s, false)

/-- FighterStats.apply_stun -/
def apply_stun (s : FighterStats) (duration : ℚ) : FighterStats :=
  { s with is_stunned := true, stun_timer := max s.stun_timer duration }

/-- FighterStats.apply_invulnerability -/
def apply_invulnerability (s : FighterStats) (duration : ℚ) : FighterStats :=
  { s with is_invulnerable := true, invuln_timer := max s.invuln_timer duration }

/-- FighterStats.record_hit -/
def record_hit (s : FighterStats) (damage : ℤ) : FighterStats :=
  let s := { s with
    total_damage_dealt := s.total_damage_dealt + damage,
    hits_landed := s.hits_landed + 1,
    combo_count := s.combo_count + 1 }
  { s with max_combo := max s.max_combo s.combo_count }

/-- FighterStats.record_dodge -/
def record_dodge (s : FighterStats) : FighterStats :=
  { s with dodges_successful := s.dodges_successful + 1 }

/-- FighterStats.get_damage_modifier -/
def get_damage_modifier (s : FighterStats) : ℚ :=
  if s.is_exhausted then s.power * EXHAUSTION_DAMAGE_PENALTY else s.power

/-- FighterStats.get_speed_modifier -/
def get_speed_modifier (s : FighterStats) : ℚ :=
  if s.is_exhausted then s.speed * (4/5) else s.speed

/-- FighterStats.is_alive -/
def is_alive (s : FighterStats) : Bool := decide (s.health > 0)

/-- FighterStats.can_act -/
def can_act (s : FighterStats) : Bool := !s.is_stunned && s.is_alive

end FighterStats

/-- stats.DamageResult.  The Python field hit_zone stores the zone's string
value; the zone itself is stored here. -/
structure DamageResult where
  raw_damage : ℚ
  final_damage : ℚ
  was_blocked : Bool
  was_crit : Bool
  was_counter : Bool
  hit_zone : HitZone := .body
deriving DecidableEq, Repr

/-- DamageResult.is_big_hit -/
def DamageResult.is_big_hit (r : DamageResult) : Bool :=
  decide (r.final_damage ≥ 25) || r.was_crit

/-! ### fighters/hitbox.py -/

/-- A world-space axis-aligned rectangle (x, y, width, height), as returned by
the get_rect methods. -/
structure Rect where
  x : ℚ
  y : ℚ
  w : ℚ
  h : ℚ
deriving DecidableEq, Repr

/-- The axis-aligned overlap test used both in Hitbox.collides_with and
HurtboxManager.check_hit. -/
def aabb_overlap (r1 r2 : Rect) : Bool :=
  decide (r1.x < r2.x + r2.w) && decide (r1.x + r1.w > r2.x) &&
  decide (r1.y < r2.y + r2.h) && decide (r1.y + r1.h > r2.y)

/-- hitbox.Hitbox -/
structure Hitbox where
  x_offset : ℚ
  y_offset : ℚ
  width : ℚ
  height : ℚ
  damage_mult : ℚ := 1
  is_active : Bool := false
  hit_zone : HitZone := .body
deriving DecidableEq, Repr

/-- Hitbox.get_rect: offsets flipped by facing, y measured down from the feet. -/
def Hitbox.get_rect (b : Hitbox) (fighter_x fighter_y : ℚ) (facing_right : Bool) : Rect :=
  let x_off := if facing_right then b.x_offset else -b.x_offset - b.width
  { x := fighter_x + x_off, y := fighter_y - b.y_offset - b.height, w := b.width, h := b.height }

/-- hitbox.Hurtbox -/
structure Hurtbox where
  x_offset : ℚ
  y_offset : ℚ
  width : ℚ
  height : ℚ
  zone : HitZone := .body
  is_active : Bool := true
deriving DecidableEq, Repr

/-- Hurtbox.get_rect -/
def Hurtbox.get_rect (b : Hurtbox) (fighter_x fighter_y : ℚ) (facing_right : Bool) : Rect :=
  let x_off := if facing_right then b.x_offset else -b.x_offset - b.width
  { x := fighter_x + x_off, y := fighter_y - b.y_offset - b.height, w := b.width, h := b.height }

/-- Hurtbox.get_damage_mult -/
def Hurtbox.get_damage_mult (b : Hurtbox) : ℚ :=
  match b.zone with
  | .head => HEAD_DAMAGE_MULT
  | .body => BODY_DAMAGE_MULT
  | .legs => LEGS_DAMAGE_MULT

/-- The priority table of HurtboxManager.check_hit: HEAD 0, BODY 1, LEGS 2. -/
def zone_priority : HitZone → ℕ
  | .head => 0
  | .body => 1
  | .legs => 2

/-- hitbox.HurtboxManager: the current hurtbox set.  The per-pose sets are the
fixed lists below; set_state swaps the list. -/
structure HurtboxManager where
  hurtboxes : List Hurtbox
deriving DecidableEq, Repr

namespace HurtboxManager

/-- HurtboxManager._create_idle_hurtboxes -/
def idle_hurtboxes : List Hurtbox :=
  [ { x_offset := -15, y_offset := 120, width := 30, height := 30, zone := .head },
    { x_offset := -20, y_offset := 70, width := 40, height := 50, zone := .body },
    { x_offset := -18, y_offset := 0, width := 36, height := 70, zone := .legs } ]

/-- HurtboxManager._create_blocking_hurtboxes -/
def blocking_hurtboxes : List Hurtbox :=
  [ { x_offset := -12, y_offset := 115, width := 24, height := 25, zone := .head },
    { x_offset := -25, y_offset := 60, width := 50, height := 55, zone := .body },
    { x_offset := -18, y_offset := 0, width := 36, height := 60, zone := .legs } ]

/-- HurtboxManager._create_crouching_hurtboxes -/
def crouching_hurtboxes : List Hurtbox :=
  [ { x_offset := -15, y_offset := 70, width := 30, height := 25, zone := .head },
    { x_offset := -22, y_offset := 30, width := 44, height := 40, zone := .body },
    { x_offset := -20, y_offset := 0, width := 40, height := 30, zone := .legs } ]

/-- HurtboxManager._create_attacking_hurtboxes -/
def attacking_hurtboxes : List Hurtbox :=
  [ { x_offset := -15, y_offset := 120, width := 30, height := 30, zone := .head },
    { x_offset := -15, y_offset := 70, width := 50, height := 50, zone := .body },
    { x_offset := -18, y_offset := 0, width := 36, height := 70, zone := .legs } ]

/-- HurtboxManager._create_knockdown_hurtboxes -/
def knockdown_hurtboxes : List Hurtbox :=
  [ { x_offset := -50, y_offset := 0, width := 100, height := 30, zone := .body } ]

/-- The _hurtbox_sets dict, keyed by state name. -/
def hurtbox_sets (state : String) : Option (List Hurtbox) :=
  if state = "idle" then some idle_hurtboxes
  else if state = "blocking" then some blocking_hurtboxes
  else if state = "crouching" then some crouching_hurtboxes
  else if state = "attacking" then some attacking_hurtboxes
  else if state = "knockdown" then some knockdown_hurtboxes
  else none

/-- HurtboxManager.__init__ starts with the default (idle-stance) hurtboxes. -/
def init : HurtboxManager := { hurtboxes := idle_hurtboxes }

/-- HurtboxManager.set_state: an unknown state name leaves the set unchanged. -/
def set_state (m : HurtboxManager) (state : String) : HurtboxManager :=
  match hurtbox_sets state with
  | some l => { hurtboxes := l }
  | none => m

/-- The stable sort by zone priority followed by taking the first element, as
in HurtboxManager.check_hit: the result is the earliest entry of minimal
priority, computed here by a left fold keeping the first strict improvement. -/
def select_first_by_priority (x : HitZone × ℚ) (xs : List (HitZone × ℚ)) : HitZone × ℚ :=
  xs.foldl (fun best h => if zone_priority h.1 < zone_priority best.1 then h else best) x

/-- HurtboxManager.check_hit: collect every overlapping active hurtbox, then
report the highest-priority zone (HEAD before BODY before LEGS). -/
def check_hit (m : HurtboxManager) (hitbox : Hitbox)
    (attacker_pos : ℚ × ℚ) (attacker_facing : Bool)
    (defender_pos : ℚ × ℚ) (defender_facing : Bool) : Option (HitZone × ℚ) :=
  let hits := (m.hurtboxes.filter fun hurtbox =>
      hurtbox.is_active &&
      aabb_overlap (hitbox.get_rect attacker_pos.1 attacker_pos.2 attacker_facing)
        (hurtbox.get_rect defender_pos.1 defender_pos.2 defender_facing)).map
    (fun hurtbox => (hurtbox.zone, hurtbox.get_damage_mult))
  match hits with
  | [] => none
  | x :: xs => some (select_first_by_priority x xs)

end HurtboxManager

/-! hitbox.AttackHitboxes factory methods. -/
namespace AttackHitboxes

def create_jab (facing_right : Bool) : Hitbox :=
  { x_offset := if facing_right then 30 else -60, y_offset := 100,
    width := 50, height := 25, damage_mult := 1, hit_zone := .head }

def create_cross (facing_right : Bool) : Hitbox :=
  { x_offset := if facing_right then 25 else -75, y_offset := 95,
    width := 70, height := 30, damage_mult := 6/5, hit_zone := .head }

def create_hook (facing_right : Bool) : Hitbox :=
  { x_offset := if facing_right then 20 else -70, y_offset := 90,
    width := 60, height := 40, damage_mult := 7/5, hit_zone := .head }

def create_uppercut (facing_right : Bool) : Hitbox :=
  { x_offset := if facing_right then 15 else -45, y_offset := 80,
    width := 40, height := 60, damage_mult := 8/5, hit_zone := .head }

end AttackHitboxes

/-- hitbox.check_collision: check_hit plus the hit position (the hitbox rect
centre) for effect placement. -/
def check_collision (hitbox : Hitbox) (hurtbox_manager : HurtboxManager)
    (attacker_pos : ℚ × ℚ) (attacker_facing : Bool)
    (defender_pos : ℚ × ℚ) (defender_facing : Bool) :
    Option (HitZone × ℚ × (ℚ × ℚ)) :=
  match hurtbox_manager.check_hit hitbox attacker_pos attacker_facing
      defender_pos defender_facing with
  | some (zone, mult) =>
      let r := hitbox.get_rect attacker_pos.1 attacker_pos.2 attacker_facing
      some (zone, mult, (r.x + r.w / 2, r.y + r.h / 2))
  | none => none

/-! ### fighters/movement.py -/

inductive MovementState
  | idle
  | walking_forward
  | walking_backward
  | advancing
  | retreating
  | knockback
  | knocked_down
deriving DecidableEq, Repr

/-- movement.MovementController -/
structure MovementController where
  x : ℚ := 0
  y : ℚ := RING_FLOOR_Y
  state : MovementState := .idle
  facing_right : Bool := true
  velocity_x : ℚ := 0
  velocity_y : ℚ := 0
  speed_mult : ℚ := 1
  knockback_velocity : ℚ := 0
  knockback_decay : ℚ := 17/20
  target_x : Option ℚ := none
  advance_duration : ℚ := 0
  min_x : ℚ := RING_LEFT + FIGHTER_WIDTH / 2
  max_x : ℚ := RING_RIGHT - FIGHTER_WIDTH / 2
deriving DecidableEq, Repr

namespace MovementController

/-- MovementController.update -/
def update (m : MovementController) (dt : ℚ) (opponent_x : Option ℚ) : MovementController :=
  let m : MovementController :=
    if m.knockback_velocity ≠ 0 then
      let m := { m with x := m.x + m.knockback_velocity * dt,
                        knockback_velocity := m.knockback_velocity * m.knockback_decay }
      if |m.knockback_velocity| < 1 then { m with knockback_velocity := 0 } else m
    else m
  let m : MovementController :=
    match m.state with
    | .walking_forward =>
        let direction : ℚ := if m.facing_right then 1 else -1
        { m with x := m.x + direction * MOVEMENT_SPEED * m.speed_mult * dt }
    | .walking_backward =>
        let direction : ℚ := if m.facing_right then -1 else 1
        { m with x := m.x + direction * MOVEMENT_SPEED * m.speed_mult * dt }
    | .advancing =>
        match m.target_x with
        | some tx =>
            let direction : ℚ := if tx > m.x then 1 else -1
            let m := { m with x := m.x + direction * ADVANCE_SPEED * m.speed_mult * dt }
            if (direction > 0 ∧ m.x ≥ tx) ∨ (direction < 0 ∧ m.x ≤ tx) then
              { m with x := tx, target_x := none, state := .idle }
            else m
        | none => m
    | .retreating =>
        match m.target_x with
        | some tx =>
            let direction : ℚ := if tx > m.x then 1 else -1
            let m := { m with x := m.x + direction * RETREAT_SPEED * m.speed_mult * dt }
            if (direction > 0 ∧ m.x ≥ tx) ∨ (direction < 0 ∧ m.x ≤ tx) then
              { m with x := tx, target_x := none, state := .idle }
            else m
        | none => m
    | _ => m
  let m := { m with x := m.x + m.velocity_x * dt, y := m.y + m.velocity_y * dt }
  let m := { m with x := max m.min_x (min m.max_x m.x), y := RING_FLOOR_Y }
  match opponent_x with
  | some ox => { m with facing_right := decide (ox > m.x) }
  | none => m

/-- MovementController.advance -/
def advance (m : MovementController) (distance : ℚ) : MovementController :=
  if m.state = .knocked_down then m
  else
    let direction : ℚ := if m.facing_right then 1 else -1
    let tx := m.x + direction * distance
    { m with target_x := some (max m.min_x (min m.max_x tx)), state := .advancing }

/-- MovementController.retreat -/
def retreat (m : MovementController) (distance : ℚ) : MovementController :=
  if m.state = .knocked_down then m
  else
    let direction : ℚ := if m.facing_right then -1 else 1
    let tx := m.x + direction * distance
    { m with target_x := some (max m.min_x (min m.max_x tx)), state := .retreating }

/-- MovementController.apply_knockback -/
def apply_knockback (m : MovementController) (force : ℚ) (from_right : Bool) : MovementController :=
  let direction : ℚ := if from_right then -1 else 1
  { m with knockback_velocity := direction * force, state := .knockback }

/-- MovementController.set_position -/
def set_position (m : MovementController) (x : ℚ) (y : ℚ := RING_FLOOR_Y) : MovementController :=
  { m with x := max m.min_x (min m.max_x x), y := y }

/-- MovementController.get_position -/
def get_position (m : MovementController) : ℚ × ℚ := (m.x, m.y)

end MovementController

/-! ### fighters/fighter.py -/

inductive ActionPhase
  | none
  | startup
  | active
  | recovery
deriving DecidableEq, Repr

inductive AnimationState
  | idle
  | walk_forward
  | walk_backward
  | jab
  | cross
  | hook
  | uppercut
  | block
  | block_hit
  | dodge
  | hit_light
  | hit_heavy
  | stagger
  | knockdown
  | getup
  | victory
  | defeat
deriving DecidableEq, Repr

/-- fighter.ActiveAction -/
structure ActiveAction where
  action_type : ActionType
  phase : ActionPhase := .none
  frame : ℕ := 0
  total_frames : ℕ := 0
  hitbox : Option Hitbox := none
  has_hit : Bool := false
  startup_frames : ℕ := 0
  active_frames : ℕ := 0
  recovery_frames : ℕ := 0
deriving DecidableEq, Repr

/-- The hit-info dict returned by Fighter.check_hit_against.  The attacker and
defender object references of the Python dict are carried by the engine as
indices instead. -/
structure HitInfo where
  damage : ℚ
  hit_zone : HitZone
  hit_position : ℚ × ℚ
  is_crit : Bool
  is_counter : Bool
  action : ActionType
deriving DecidableEq, Repr

/-- fighter.Fighter.  The name, player id and the presentation callbacks
(on_hit/on_block/on_dodge) and shake_offset play no part in combat logic and
are omitted. -/
structure Fighter where
  stats : FighterStats := {}
  movement : MovementController := {}
  hurtbox_manager : HurtboxManager := HurtboxManager.init
  is_player_one : Bool := true
  current_action : Option ActiveAction := none
  action_queue : List ActionType := []
  last_action : Option ActionType := none
  combo_window : ℚ := 0
  animation_state : AnimationState := .idle
  animation_frame : ℕ := 0
  animation_timer : ℚ := 0
  flash_timer : ℚ := 0
deriving DecidableEq, Repr

namespace Fighter

/-- Fighter.__init__: position and facing from the player slot, everything
else at rest. -/
def init (stats : FighterStats) (is_player_one : Bool) : Fighter :=
  let start_x := if is_player_one then FIGHTER1_START_X else FIGHTER2_START_X
  { stats := stats,
    movement := { (MovementController.set_position {} start_x RING_FLOOR_Y) with
                    facing_right := !is_player_one },
    is_player_one := is_player_one }

/-- Fighter._create_hitbox -/
def _create_hitbox (f : Fighter) (action_type : ActionType) : Hitbox :=
  let facing := f.movement.facing_right
  match action_type with
  | .jab => AttackHitboxes.create_jab facing
  | .cross => AttackHitboxes.create_cross facing
  | .hook => AttackHitboxes.create_hook facing
  | .uppercut => AttackHitboxes.create_uppercut facing
  | _ => { x_offset := 0, y_offset := 0, width := 0, height := 0 }

/-- Fighter._set_animation_for_action -/
def _set_animation_for_action (f : Fighter) (action_type : ActionType) : Fighter :=
  let anim :=
    match action_type with
    | .jab => AnimationState.jab
    | .cross => AnimationState.cross
    | .hook => AnimationState.hook
    | .uppercut => AnimationState.uppercut
    | .block => AnimationState.block
    | .dodge => AnimationState.dodge
    | _ => AnimationState.idle
  { f with animation_state := anim, animation_frame := 0, animation_timer := 0 }

/-- Fighter.execute_action.  Returns the updated fighter and whether the
action was accepted (started, or queued for chaining during recovery). -/
def execute_action (f : Fighter) (action_type : ActionType) : Fighter × Bool :=
  if !f.stats.can_act then (f, false)
  else
    match f.current_action with
    | some ca =>
        if ca.phase = .recovery ∧ f.action_queue.length < 2 then
          match ACTION_DATA_get action_type with
          | some action_data =>
              if action_data.can_chain > 1 then
                ({ f with action_queue := f.action_queue ++ [action_type] }, true)
              else (f, false)
          | none => (f, false)
        else (f, false)
    | none =>
        match ACTION_DATA_get action_type with
        | none => (f, false)
        | some action_data =>
            let used := f.stats.use_stamina action_data.stamina_cost
            if !used.2 then ({ f with stats := used.1 }, false)
            else
              let f := { f with stats := used.1 }
              let ca : ActiveAction :=
                { action_type := action_type, phase := .startup, frame := 0,
                  startup_frames := action_data.startup_frames,
                  active_frames := action_data.active_frames,
                  recovery_frames := action_data.recovery_frames,
                  total_frames := action_data.startup_frames + action_data.active_frames +
                                  action_data.recovery_frames }
              let f : Fighter :=
                match action_type with
                | .jab | .cross | .hook | .uppercut =>
                    { f with current_action := some { ca with hitbox := some (f._create_hitbox action_type) },
                             hurtbox_manager := f.hurtbox_manager.set_state "attacking",
                             movement := f.movement.advance (action_data.move_distance : ℚ) }
                | .block =>
                    { f with current_action := some ca,
                             stats := { f.stats with is_blocking := true },
                             hurtbox_manager := f.hurtbox_manager.set_state "blocking" }
                | .dodge =>
                    { f with current_action := some ca,
                             hurtbox_manager := f.hurtbox_manager.set_state "crouching",
                             movement := f.movement.retreat |(action_data.move_distance : ℚ)| }
                | _ => { f with current_action := some ca }
              (f._set_animation_for_action action_type, true)

/-- Fighter._complete_action: record the last action, open the 300 ms chain
window, clear the action and start the next queued one, if any. -/
def _complete_action (f : Fighter) : Fighter :=
  let f : Fighter :=
    match f.current_action with
    | some ca => { f with last_action := some ca.action_type, combo_window := 3/10 }
    | none => f
  let f := { f with current_action := none, animation_state := .idle,
                    hurtbox_manager := f.hurtbox_manager.set_state "idle" }
  match f.action_queue with
  | [] => f
  | next_action :: rest => (execute_action { f with action_queue := rest } next_action).1

/-- Fighter._update_action.  The source computes a per-frame duration from the
speed modifier but never uses it (the elapsed-frame counter advances by one
per tick and is compared against the raw catalog thresholds); the dead
binding is kept here.  (With a zero speed modifier the source would raise
ZeroDivisionError; the default modifiers are positive and the repository
never sets speed to 0.) -/
def _update_action (f : Fighter) (_dt : ℚ) : Fighter :=
  match f.current_action with
  | none => f
  | some action =>
      match ACTION_DATA_get action.action_type with
      | none => { f with current_action := none }
      | some _action_data =>
          let _frame_duration := 1 / 60 / f.stats.get_speed_modifier
          let action := { action with frame := action.frame + 1 }
          let deactivated := action.hitbox.map (fun hb => { hb with is_active := false })
          let activated := action.hitbox.map (fun hb => { hb with is_active := true })
          if action.frame ≤ action.startup_frames then
            { f with current_action := some { action with phase := .startup, hitbox := deactivated } }
          else if action.frame ≤ action.startup_frames + action.active_frames then
            { f with current_action := some { action with phase := .active, hitbox := activated } }
          else if action.frame ≤ action.total_frames then
            { f with current_action := some { action with phase := .recovery, hitbox := deactivated } }
          else
            _complete_action { f with current_action := some action }

/-- Fighter._update_animation -/
def _update_animation (f : Fighter) (dt : ℚ) : Fighter :=
  let f := { f with animation_timer := f.animation_timer + dt }
  if f.animation_timer ≥ 1/30 then
    { f with animation_timer := 0, animation_frame := f.animation_frame + 1 }
  else f

/-- Fighter.update.  The Python method receives the opponent object and reads
only its x position, passed here directly. -/
def update (f : Fighter) (dt : ℚ) (opponent_x : Option ℚ) : Fighter :=
  let f := { f with movement := f.movement.update dt opponent_x }
  let is_idle := f.current_action.isNone
  let f := { f with stats := f.stats.update dt is_idle }
  let f := f._update_action dt
  let f := f._update_animation dt
  let f : Fighter := if f.flash_timer > 0 then { f with flash_timer := f.flash_timer - dt } else f
  if f.combo_window > 0 then
    let cw := f.combo_window - dt
    if cw ≤ 0 then { f with combo_window := cw, stats := { f.stats with combo_count := 0 } }
    else { f with combo_window := cw }
  else f

/-- Fighter.receive_hit.  Applies the zone multiplier (again, on top of the
one already folded into the damage by check_hit_against), runs take_damage,
and on positive damage applies flash, knockback, stun and the interruption
rule (a non-blocking defender loses its current action). -/
def receive_hit (f : Fighter) (damage : ℚ) (hit_zone : HitZone) (attacker_x : ℚ)
    (is_crit : Bool := false) (is_counter : Bool := false) : Fighter × DamageResult :=
  let zone_mult : ℚ :=
    match hit_zone with
    | .head => 3/2
    | .body => 1
    | .legs => 4/5
  let raw_damage := damage * zone_mult
  let taken := f.stats.take_damage raw_damage is_crit is_counter
  let f := { f with stats := taken.1 }
  let final_damage := taken.2
  let result : DamageResult :=
    { raw_damage := raw_damage, final_damage := final_damage,
      was_blocked := f.stats.is_blocking, was_crit := is_crit,
      was_counter := is_counter, hit_zone := hit_zone }
  if final_damage > 0 then
    let f := { f with flash_timer := 1/10 }
    let from_right := decide (attacker_x > f.movement.x)
    let knockback := KNOCKBACK_FORCE
    let knockback := if is_crit then knockback * (3/2) else knockback
    let knockback := if result.was_blocked then knockback * (3/10) else knockback
    let f := { f with movement := f.movement.apply_knockback knockback from_right }
    let f : Fighter :=
      if f.stats.is_blocking then
        { f with stats := f.stats.apply_stun BLOCK_STUN, animation_state := .block_hit }
      else if is_crit || decide (final_damage ≥ 30) then
        { f with stats := f.stats.apply_stun HIT_STUN_HEAVY, animation_state := .hit_heavy }
      else
        { f with stats := f.stats.apply_stun HIT_STUN_LIGHT, animation_state := .hit_light }
    let f : Fighter :=
      if f.current_action.isSome && !f.stats.is_blocking then { f with current_action := none }
      else f
    (f, result)
  else (f, result)

/-- Fighter.check_hit_against.  `roll` stands for the
random.randint(damage_min, damage_max) draw and `crit_roll` for the
random.random() crit draw. -/
def check_hit_against (f : Fighter) (opponent : Fighter) (roll : ℤ) (crit_roll : ℚ) :
    Fighter × Option HitInfo :=
  match f.current_action with
  | none => (f, none)
  | some ca =>
      match ca.hitbox with
      | none => (f, none)
      | some hitbox =>
          if !hitbox.is_active then (f, none)
          else if ca.has_hit then (f, none)
          else
            match check_collision hitbox opponent.hurtbox_manager
                f.movement.get_position f.movement.facing_right
                opponent.movement.get_position opponent.movement.facing_right with
            | none => (f, none)
            | some (zone, mult, hit_pos) =>
                let f := { f with current_action := some { ca with has_hit := true } }
                match ACTION_DATA_get ca.action_type with
                | none => (f, none)
                | some action_data =>
                    let base_damage := (roll : ℚ)
                    let base_damage := base_damage * f.stats.get_damage_modifier
                    let base_damage := base_damage * mult
                    let is_crit := decide (crit_roll < action_data.crit_bonus)
                    let is_counter :=
                      match opponent.current_action with
                      | some oa => decide (oa.phase = .startup)
                      | none => false
                    (f, some { damage := base_damage, hit_zone := zone,
                               hit_position := hit_pos, is_crit := is_crit,
                               is_counter := is_counter, action := ca.action_type })

/-- Fighter.can_act (property): stats-level can_act plus no current action. -/
def fighter_can_act (f : Fighter) : Bool := f.stats.can_act && f.current_action.isNone

end Fighter

/-! ### combat/combo.py -/

inductive ComboType
  | none
  | basic
  | one_two
  | three_piece
  | body_work
  | finisher
  | fury
deriving DecidableEq, Repr

/-- combo.ComboSequence -/
structure ComboSequence where
  name : String
  combo_type : ComboType
  sequence : List ActionType
  damage_bonus : ℚ := 1
  style_points : ℤ := 0
deriving DecidableEq, Repr

/-- combo.COMBO_SEQUENCES -/
def COMBO_SEQUENCES : List ComboSequence :=
  [ { name := "One-Two", combo_type := .one_two,
      sequence := [.jab, .cross], damage_bonus := 11/10, style_points := 10 },
    { name := "Three Piece", combo_type := .three_piece,
      sequence := [.jab, .cross, .hook], damage_bonus := 6/5, style_points := 25 },
    { name := "The Finisher", combo_type := .finisher,
      sequence := [.jab, .jab, .uppercut], damage_bonus := 13/10, style_points := 30 },
    { name := "Body Breaker", combo_type := .body_work,
      sequence := [.hook, .hook, .cross], damage_bonus := 23/20, style_points := 20 } ]

/-- combo.ComboTracker.  current_count and best_combo are Python ints (kept as
integers so that the -1 in get_damage_bonus behaves as in the source). -/
structure ComboTracker where
  current_count : ℤ := 0
  total_damage : ℚ := 0
  hit_sequence : List ActionType := []
  combo_timer : ℚ := 0
  combo_timeout : ℚ := 4/5
  best_combo : ℤ := 0
  best_damage : ℚ := 0
  active_combo : Option ComboSequence := none
  total_style_points : ℤ := 0
deriving DecidableEq, Repr

namespace ComboTracker

/-- ComboTracker._check_combo_sequence: the first table entry whose sequence
equals the trailing identifiers. -/
def _check_combo_sequence (t : ComboTracker) : Option ComboSequence :=
  COMBO_SEQUENCES.find? fun combo =>
    let seq_len := combo.sequence.length
    decide (t.hit_sequence.length ≥ seq_len) &&
    decide (t.hit_sequence.drop (t.hit_sequence.length - seq_len) = combo.sequence)

/-- ComboTracker.add_hit -/
def add_hit (t : ComboTracker) (action : ActionType) (damage : ℚ) :
    ComboTracker × Option ComboSequence :=
  let t := { t with
    current_count := t.current_count + 1,
    total_damage := t.total_damage + damage,
    hit_sequence := t.hit_sequence ++ [action],
    combo_timer := t.combo_timeout }
  let t := if t.current_count > t.best_combo then { t with best_combo := t.current_count } else t
  let t := if t.total_damage > t.best_damage then { t with best_damage := t.total_damage } else t
  match t._check_combo_sequence with
  | some recognized =>
      ({ t with active_combo := some recognized,
                total_style_points := t.total_style_points + recognized.style_points },
       some recognized)
  | none => (t, none)

/-- ComboTracker.reset -/
def reset (t : ComboTracker) : ComboTracker :=
  { t with current_count := 0, total_damage := 0, hit_sequence := [],
           combo_timer := 0, active_combo := none }

/-- ComboTracker.update: count the expiry timer down; on expiry, reset. -/
def update (t : ComboTracker) (dt : ℚ) : ComboTracker :=
  if t.combo_timer > 0 then
    let t := { t with combo_timer := t.combo_timer - dt }
    if t.combo_timer ≤ 0 then t.reset else t
  else t

/-- ComboTracker.is_active -/
def is_active (t : ComboTracker) : Bool :=
  decide (t.current_count > 0) && decide (t.combo_timer > 0)

/-- ComboTracker.get_damage_bonus -/
def get_damage_bonus (t : ComboTracker) : ℚ :=
  let count_bonus : ℚ := 1 + ((t.current_count : ℚ) - 1) * (1/20)
  match t.active_combo with
  | some c => count_bonus * c.damage_bonus
  | none => count_bonus

end ComboTracker

/-! ### combat/distance.py -/

inductive RangeZone
  | clinch
  | punch
  | medium
  | safe
  | far
deriving DecidableEq, Repr

/-- distance.DistanceManager -/
structure DistanceManager where
  distance : ℚ := 0
  previous_distance : ℚ := 0
  closing_speed : ℚ := 0
  fighter1_x : ℚ := 0
  fighter2_x : ℚ := 0
deriving DecidableEq, Repr

/-- DistanceManager.update -/
def DistanceManager.update (d : DistanceManager) (f1_x f2_x : ℚ) : DistanceManager :=
  let d := { d with previous_distance := d.distance, fighter1_x := f1_x, fighter2_x := f2_x,
                    distance := |f2_x - f1_x| }
  { d with closing_speed := d.previous_distance - d.distance }

/-- DistanceManager.get_zone -/
def DistanceManager.get_zone (d : DistanceManager) : RangeZone :=
  if d.distance ≤ CLINCH_RANGE then .clinch
  else if d.distance ≤ PUNCH_RANGE then .punch
  else if d.distance ≤ MEDIUM_RANGE then .medium
  else if d.distance ≤ SAFE_RANGE then .safe
  else .far

/-! ### combat/engine.py -/

/-- engine.HitEvent -/
structure HitEvent where
  attacker_id : ℕ
  defender_id : ℕ
  action : ActionType
  damage : ℚ
  hit_zone : HitZone
  position : ℚ × ℚ
  is_crit : Bool := false
  is_counter : Bool := false
  is_blocked : Bool := false
  combo_count : ℤ := 0
  timestamp : ℚ := 0
deriving DecidableEq, Repr

/-- engine.CombatState -/
structure CombatState where
  hit_events : List HitEvent := []
  last_attacker : Option ℕ := none
  momentum : ℚ := 1/2
  clinch_active : Bool := false
  clinch_timer : ℚ := 0
deriving DecidableEq, Repr

/-- The per-hit result dict built by CombatEngine._process_hit.  The
knocked_down entry stores the defender fighter object in Python; the
defender's index is stored here. -/
structure HitResult where
  attacker : ℕ
  defender : ℕ
  damage : ℚ
  raw_damage : ℚ
  hit_zone : HitZone
  hit_position : ℚ × ℚ
  is_crit : Bool
  is_counter : Bool
  is_blocked : Bool
  combo_count : ℤ
  big_hit : Bool
  shake_amount : ℚ
  knockdown : Bool
  knocked_down : Option ℕ
deriving DecidableEq, Repr

/-- The combined result dict returned by CombatEngine.update: a single hit, or
a trade carrying the per-hit results. -/
inductive CombinedResult
  | hit (r : HitResult)
  | trade (hits : List HitResult) (big_hit : Bool) (shake_amount : ℚ)
      (knockdown : Bool) (knocked_down : Option ℕ)
deriving DecidableEq, Repr

/-- engine.CombatEngine.  The hit buffer dict is a keyed association list. -/
structure CombatEngine where
  state : CombatState := {}
  combo_trackers : ComboTracker × ComboTracker := ({}, {})
  distance_manager : DistanceManager := {}
  time_elapsed : ℚ := 0
  hit_buffer : List ((ℕ × ℚ) × ℚ) := []
  hit_buffer_duration : ℚ := 1/10
deriving DecidableEq, Repr

namespace CombatEngine

/-- self.combo_trackers[idx] (the engine only ever indexes with 0 or 1). -/
def tracker_get (e : CombatEngine) (idx : ℕ) : ComboTracker :=
  if idx = 0 then e.combo_trackers.1 else e.combo_trackers.2

/-- Assignment to self.combo_trackers[idx]. -/
def tracker_set (e : CombatEngine) (idx : ℕ) (t : ComboTracker) : CombatEngine :=
  if idx = 0 then { e with combo_trackers := (t, e.combo_trackers.2) }
  else { e with combo_trackers := (e.combo_trackers.1, t) }

/-- CombatEngine._update_hit_buffer: decrement every timer, drop the expired
entries. -/
def _update_hit_buffer (e : CombatEngine) (dt : ℚ) : CombatEngine :=
  { e with hit_buffer :=
      (e.hit_buffer.map fun kv => (kv.1, kv.2 - dt)).filter fun kv => decide (kv.2 > 0) }

/-- CombatEngine._update_momentum -/
def _update_momentum (e : CombatEngine) (attacker_idx : ℕ) (damage : ℚ) : CombatEngine :=
  let momentum_shift := damage / 100
  let momentum_shift := min momentum_shift (1/5)
  if attacker_idx = 0 then
    { e with state := { e.state with momentum := min 1 (e.state.momentum + momentum_shift) } }
  else
    { e with state := { e.state with momentum := max 0 (e.state.momentum - momentum_shift) } }

/-- CombatEngine._process_hit.  Returns the updated engine, attacker and
defender (the Python method mutates the fighter objects in place) and the
result dict, or none when the attacker is still in the hit buffer. -/
def _process_hit (e : CombatEngine) (hit_info : HitInfo)
    (attacker_idx defender_idx : ℕ) (attacker defender : Fighter) :
    CombatEngine × Fighter × Fighter × Option HitResult :=
  if (e.hit_buffer.map fun kv => kv.1.1).contains attacker_idx then
    (e, attacker, defender, none)
  else
    let e := { e with hit_buffer :=
        e.hit_buffer ++ [((attacker_idx, e.time_elapsed), e.hit_buffer_duration)] }
    let r := defender.receive_hit hit_info.damage hit_info.hit_zone attacker.movement.x
      hit_info.is_crit hit_info.is_counter
    let defender := r.1
    let damage_result := r.2
    let attacker := { attacker with
      stats := attacker.stats.record_hit (pytrunc damage_result.final_damage) }
    let tr := (e.tracker_get attacker_idx).add_hit hit_info.action damage_result.final_damage
    let e := e.tracker_set attacker_idx tr.1
    let event : HitEvent :=
      { attacker_id := attacker_idx, defender_id := defender_idx,
        action := hit_info.action, damage := damage_result.final_damage,
        hit_zone := hit_info.hit_zone, position := hit_info.hit_position,
        is_crit := hit_info.is_crit, is_counter := hit_info.is_counter,
        is_blocked := damage_result.was_blocked,
        combo_count := (e.tracker_get attacker_idx).current_count,
        timestamp := e.time_elapsed }
    let e := { e with state := { e.state with
      hit_events := e.state.hit_events ++ [event], last_attacker := some attacker_idx } }
    let e := e._update_momentum attacker_idx damage_result.final_damage
    let shake_amount := SHAKE_LIGHT
    let shake_amount :=
      if damage_result.is_big_hit then SHAKE_HEAVY
      else if hit_info.is_crit then SHAKE_MEDIUM
      else shake_amount
    let result : HitResult :=
      { attacker := attacker_idx, defender := defender_idx,
        damage := damage_result.final_damage, raw_damage := damage_result.raw_damage,
        hit_zone := hit_info.hit_zone, hit_position := hit_info.hit_position,
        is_crit := hit_info.is_crit, is_counter := hit_info.is_counter,
        is_blocked := damage_result.was_blocked, combo_count := event.combo_count,
        big_hit := damage_result.is_big_hit, shake_amount := shake_amount,
        knockdown := decide (defender.stats.health ≤ 0) || decide (damage_result.final_damage ≥ 40),
        knocked_down := if damage_result.final_damage ≥ 40 then some defender_idx else none }
    (e, attacker, defender, some result)

/-- CombatEngine._combine_results (only ever called on a nonempty list). -/
def _combine_results (results : List HitResult) : CombinedResult :=
  match results with
  | [r] => .hit r
  | [] => .trade [] false 0 false none
  | r :: rest =>
      CombinedResult.trade (r :: rest)
        ((r :: rest).any fun x => x.big_hit)
        (rest.foldl (fun m x => max m x.shake_amount) r.shake_amount)
        ((r :: rest).any fun x => x.knockdown)
        ((r :: rest).findSome? fun x => x.knocked_down)

/-- CombatEngine.update.  Fighter 1's hit is checked and fully processed
before fighter 2's hit is checked; the four draw arguments stand for the
random.randint and random.random draws each check may consume. -/
def update (e : CombatEngine) (dt : ℚ) (fighter1 fighter2 : Fighter)
    (roll1 : ℤ) (crit1 : ℚ) (roll2 : ℤ) (crit2 : ℚ) :
    CombatEngine × Fighter × Fighter × Option CombinedResult :=
  let e := { e with time_elapsed := e.time_elapsed + dt }
  let e := { e with distance_manager :=
      e.distance_manager.update fighter1.movement.x fighter2.movement.x }
  let e := { e with combo_trackers :=
      (e.combo_trackers.1.update dt, e.combo_trackers.2.update dt) }
  let e := e._update_hit_buffer dt
  let c1 := fighter1.check_hit_against fighter2 roll1 crit1
  let fighter1 := c1.1
  let step1 :=
    match c1.2 with
    | some hit_info => e._process_hit hit_info 0 1 fighter1 fighter2
    | none => (e, fighter1, fighter2, none)
  let e := step1.1
  let fighter1 := step1.2.1
  let fighter2 := step1.2.2.1
  let results :=
    match step1.2.2.2 with
    | some r => [r]
    | none => ([] : List HitResult)
  let c2 := fighter2.check_hit_against fighter1 roll2 crit2
  let fighter2 := c2.1
  let step2 :=
    match c2.2 with
    | some hit_info => e._process_hit hit_info 1 0 fighter2 fighter1
    | none => (e, fighter2, fighter1, none)
  let e := step2.1
  let fighter2 := step2.2.1
  let fighter1 := step2.2.2.1
  let results := results ++
    (match step2.2.2.2 with
     | some r => [r]
     | none => ([] : List HitResult))
  match results with
  | [] => (e, fighter1, fighter2, none)
  | _ => (e, fighter1, fighter2, some (_combine_results results))

end CombatEngine

/-! ### ai/personality.py -/

/-- personality.PersonalityTraits -/
structure PersonalityTraits where
  aggression : ℚ
  patience : ℚ
  risk_tolerance : ℚ
  adaptability : ℚ
  trash_talk_freq : ℚ
  jab_weight : ℚ := 1
  cross_weight : ℚ := 1
  hook_weight : ℚ := 1
  uppercut_weight : ℚ := 1
  block_weight : ℚ := 1
  dodge_weight : ℚ := 1
deriving DecidableEq, Repr

/-- personality.PERSONALITIES (dict lookup). -/
def PERSONALITIES_get (name : String) : Option PersonalityTraits :=
  if name = "destroyer" then
    some { aggression := 9/10, patience := 1/5, risk_tolerance := 4/5, adaptability := 2/5,
           trash_talk_freq := 9/10, jab_weight := 3/5, cross_weight := 6/5, hook_weight := 3/2,
           uppercut_weight := 13/10, block_weight := 3/10, dodge_weight := 2/5 }
  else if name = "tactician" then
    some { aggression := 1/2, patience := 4/5, risk_tolerance := 3/10, adaptability := 9/10,
           trash_talk_freq := 3/10, jab_weight := 7/5, cross_weight := 11/10, hook_weight := 7/10,
           uppercut_weight := 1/2, block_weight := 6/5, dodge_weight := 1 }
  else if name = "ghost" then
    some { aggression := 3/10, patience := 9/10, risk_tolerance := 1/5, adaptability := 7/10,
           trash_talk_freq := 1/2, jab_weight := 6/5, cross_weight := 4/5, hook_weight := 3/5,
           uppercut_weight := 9/10, block_weight := 4/5, dodge_weight := 3/2 }
  else if name = "wildcard" then
    some { aggression := 3/5, patience := 1/2, risk_tolerance := 9/10, adaptability := 3/10,
           trash_talk_freq := 1, jab_weight := 1, cross_weight := 1, hook_weight := 6/5,
           uppercut_weight := 13/10, block_weight := 4/5, dodge_weight := 1 }
  else if name = "balanced" then
    some { aggression := 1/2, patience := 1/2, risk_tolerance := 1/2, adaptability := 1/2,
           trash_talk_freq := 1/2 }
  else if name = "aggressive" then
    some { aggression := 4/5, patience := 3/10, risk_tolerance := 7/10, adaptability := 1/2,
           trash_talk_freq := 7/10, jab_weight := 4/5, cross_weight := 13/10, hook_weight := 7/5,
           uppercut_weight := 6/5, block_weight := 2/5, dodge_weight := 1/2 }
  else if name = "defensive" then
    some { aggression := 3/10, patience := 4/5, risk_tolerance := 1/5, adaptability := 3/5,
           trash_talk_freq := 2/5, jab_weight := 13/10, cross_weight := 4/5, hook_weight := 3/5,
           uppercut_weight := 7/10, block_weight := 7/5, dodge_weight := 13/10 }
  else none

/-- personality.TRASH_TALK (dict lookup). -/
def TRASH_TALK_get (name : String) : Option (List String) :=
  if name = "destroyer" then
    some ["Feel the pain!", "You\x27re going DOWN!", "Is that all you got?", "Too slow!",
          "BOOM! Did that hurt?", "I\x27m just getting started!", "You call that a punch?",
          "Stay down!"]
  else if name = "tactician" then
    some ["Predictable.", "I see your pattern.", "Calculate that.", "As expected.",
          "Your move was... obvious.", "Efficiency wins.", "Think faster.", "Strategic error."]
  else if name = "ghost" then
    some ["Can\x27t touch this.", "I\x27m not even here.", "Like shadow...",
          "Too slow to catch me.", "Now you see me...", "Missed again.",
          "Float like a butterfly...", "Patience..."]
  else if name = "wildcard" then
    some ["SURPRISE!", "Bet you didn\x27t see that coming!", "YOLO!",
          "What\x27s next? Even I don\x27t know!", "Chaos is my friend!", "Random? Or genius?",
          "WILDCARD BABY!", "Expect the unexpected!"]
  else if name = "balanced" then
    some ["Good fight.", "Nice try.", "Keep it up.", "Not bad.", "Interesting move.",
          "Let\x27s go!", "Show me what you got.", "Round two!"]
  else if name = "aggressive" then
    some ["ATTACK!", "No mercy!", "Coming at you!", "Can\x27t stop this!", "Take THIS!",
          "Non-stop assault!", "Keep your guard up!", "Pressure!"]
  else if name = "defensive" then
    some ["Nice try.", "Blocked.", "Saw that coming.", "Patience pays off.", "Your turn.",
          "Counter time.", "Wait for it...", "Defense wins."]
  else none

/-- personality.PersonalityManager (the adaptability counters play no part in
the fallback decision logic but are carried for completeness). -/
structure PersonalityManager where
  personality_name : String
  traits : PersonalityTraits
  _damage_taken : ℚ := 0
  _damage_dealt : ℚ := 0
  _blocks_successful : ℤ := 0
  _hits_landed : ℤ := 0
  _mode : String := "normal"
deriving DecidableEq, Repr

namespace PersonalityManager

/-- PersonalityManager.__init__ -/
def init (personality_name : String := "balanced") : PersonalityManager :=
  let lower := personality_name.toLower
  { personality_name := lower,
    traits := (PERSONALITIES_get lower).getD
      ((PERSONALITIES_get "balanced").getD
        { aggression := 1/2, patience := 1/2, risk_tolerance := 1/2, adaptability := 1/2,
          trash_talk_freq := 1/2 }) }

/-- PersonalityManager.get_action_weights: the ordered weight table (the
Python dict preserves the JAB..IDLE insertion order). -/
def get_action_weights (p : PersonalityManager)
    (my_health opp_health my_stamina : ℚ) (distance opp_action : String) :
    List (ActionType × ℚ) :=
  let w_jab := p.traits.jab_weight
  let w_cross := p.traits.cross_weight
  let w_hook := p.traits.hook_weight
  let w_uppercut := p.traits.uppercut_weight
  let w_block := p.traits.block_weight
  let w_dodge := p.traits.dodge_weight
  let w_idle : ℚ := 1/5
  let q : ℚ × ℚ × ℚ × ℚ :=
    if my_health < 30 then
      if p.traits.aggression > 3/5 then (w_hook * (3/2), w_uppercut * (3/2), w_block, w_dodge)
      else (w_hook, w_uppercut, w_block * (3/2), w_dodge * (3/2))
    else (w_hook, w_uppercut, w_block, w_dodge)
  let w_hook := q.1
  let w_uppercut := q.2.1
  let w_block := q.2.2.1
  let w_dodge := q.2.2.2
  let q : ℚ × ℚ × ℚ :=
    if opp_health < 30 then (w_cross * (13/10), w_hook * (13/10), w_uppercut * (7/5))
    else (w_cross, w_hook, w_uppercut)
  let w_cross := q.1
  let w_hook := q.2.1
  let w_uppercut := q.2.2
  let q : ℚ × ℚ × ℚ × ℚ :=
    if my_stamina < 30 then (w_jab * (3/2), w_hook * (1/2), w_uppercut * (3/10), w_idle * 2)
    else (w_jab, w_hook, w_uppercut, w_idle)
  let w_jab := q.1
  let w_hook := q.2.1
  let w_uppercut := q.2.2.1
  let w_idle := q.2.2.2
  let q : ℚ × ℚ × ℚ × ℚ :=
    if distance = "far" then (w_idle * (3/2), w_uppercut * (3/10), w_hook, w_dodge)
    else if distance = "clinch" then (w_idle, w_uppercut * (3/2), w_hook * (13/10), w_dodge * (1/2))
    else (w_idle, w_uppercut, w_hook, w_dodge)
  let w_idle := q.1
  let w_uppercut := q.2.1
  let w_hook := q.2.2.1
  let w_dodge := q.2.2.2
  let q : ℚ × ℚ × ℚ :=
    if opp_action = "JAB" ∨ opp_action = "CROSS" ∨ opp_action = "HOOK" ∨
        opp_action = "UPPERCUT" then
      if p.traits.patience > 3/5 then (w_block * (3/2), w_dodge * (13/10), w_jab)
      else (w_block, w_dodge, w_jab * (13/10))
    else (w_block, w_dodge, w_jab)
  let w_block := q.1
  let w_dodge := q.2.1
  let w_jab := q.2.2
  [(.jab, w_jab), (.cross, w_cross), (.hook, w_hook), (.uppercut, w_uppercut),
   (.block, w_block), (.dodge, w_dodge), (.idle, w_idle)]

/-- The cumulative-weight scan of PersonalityManager.choose_action. -/
def pick_weighted (r : ℚ) : ℚ → List (ActionType × ℚ) → ActionType
  | _, [] => .idle
  | cumulative, (action, weight) :: rest =>
      let cumulative := cumulative + weight
      if r ≤ cumulative then action else pick_weighted r cumulative rest

/-- PersonalityManager.choose_action; r01 stands for the random.random()
draw. -/
def choose_action (p : PersonalityManager)
    (my_health opp_health my_stamina : ℚ) (distance opp_action : String)
    (r01 : ℚ) : ActionType :=
  let weights := p.get_action_weights my_health opp_health my_stamina distance opp_action
  let valid_actions := weights.filter fun aw =>
    decide (my_stamina ≥ (ACTION_DATA aw.1).stamina_cost * (1/2))
  if valid_actions.isEmpty then .idle
  else
    let total := (valid_actions.map fun aw => aw.2).sum
    let r := r01 * total
    pick_weighted r 0 valid_actions

/-- PersonalityManager.get_trash_talk; gate_roll stands for random.random()
and choice_idx for the random.choice index (reduced modulo the list
length). -/
def get_trash_talk (p : PersonalityManager) (gate_roll : ℚ) (choice_idx : ℕ) : String :=
  if gate_roll > p.traits.trash_talk_freq then ""
  else
    let lines := (TRASH_TALK_get p.personality_name).getD
      ((TRASH_TALK_get "balanced").getD [])
    (lines.get? (choice_idx % lines.length)).getD ""

end PersonalityManager

/-! ### ai/fallback.py -/

/-- fallback.FallbackDecision -/
structure FallbackDecision where
  action : ActionType
  reasoning : String
  trash_talk : String
  confidence : ℚ
deriving DecidableEq, Repr

/-- The game_state dict consumed by FallbackAI.get_action, with the .get
defaults as field defaults. -/
structure GameStateDict where
  my_health : ℚ := 100
  my_stamina : ℚ := 100
  opp_health : ℚ := 100
  opp_stamina : ℚ := 100
  distance : String := "medium"
  distance_px : ℚ := 200
  opp_action : String := "idle"
  can_act : Bool := true
deriving DecidableEq, Repr

/-- Outcome of FallbackAI._decide_action.  The far-distance branch evaluates
`random.random()` but fallback.py never imports random, so with stamina ≥ 8
at far range the source raises NameError, modelled explicitly. -/
inductive DecideOutcome
  | ok (action : ActionType) (reasoning : String) (confidence : ℚ)
  | name_error
deriving DecidableEq, Repr

/-- fallback.FallbackAI -/
structure FallbackAI where
  personality : PersonalityManager := PersonalityManager.init "balanced"
  _last_action : Option ActionType := none
  _consecutive_same : ℕ := 0
  _combo_sequence : List ActionType := []
deriving DecidableEq, Repr

namespace FallbackAI

/-- FallbackAI._respond_to_attack -/
def _respond_to_attack (ai : FallbackAI) (opp_action : String) (stamina : ℚ)
    (_distance : String) : DecideOutcome :=
  if (opp_action = "HOOK" ∨ opp_action = "UPPERCUT") ∧ stamina ≥ 15 then
    .ok .dodge "Evading heavy attack" (4/5)
  else if (opp_action = "HOOK" ∨ opp_action = "UPPERCUT") ∧ stamina ≥ 12 then
    .ok .block "Blocking heavy attack" (17/20)
  else if stamina ≥ 8 ∧ ai.personality.traits.aggression > 1/2 then
    .ok .jab "Counter jab" (7/10)
  else if stamina ≥ 12 then
    .ok .block "Blocking" (4/5)
  else
    .ok .jab "Trading" (1/2)

/-- FallbackAI._desperate_mode -/
def _desperate_mode (stamina opp_health : ℚ) (distance : String) : DecideOutcome :=
  if opp_health < 30 ∧ (distance = "punch" ∨ distance = "clinch") ∧ stamina ≥ 35 then
    .ok .uppercut "Desperate uppercut!" (3/5)
  else if opp_health < 30 ∧ (distance = "punch" ∨ distance = "clinch") ∧ stamina ≥ 28 then
    .ok .hook "Desperate hook!" (3/5)
  else if stamina ≥ 15 then .ok .dodge "Survival dodge" (7/10)
  else if stamina ≥ 12 then .ok .block "Survival block" (7/10)
  else .ok .idle "Desperate recovery" (1/2)

/-- FallbackAI._finish_mode -/
def _finish_mode (stamina : ℚ) : DecideOutcome :=
  if stamina ≥ 35 then .ok .uppercut "Finish with uppercut!" (4/5)
  else if stamina ≥ 28 then .ok .hook "Finish with hook!" (4/5)
  else if stamina ≥ 18 then .ok .cross "Finish with cross!" (4/5)
  else if stamina ≥ 8 then .ok .jab "Finish with jab!" (4/5)
  else .ok .idle "Waiting to finish" (3/5)

/-- FallbackAI._clinch_action -/
def _clinch_action (stamina : ℚ) : DecideOutcome :=
  if stamina ≥ 35 then .ok .uppercut "Clinch uppercut" (7/10)
  else if stamina ≥ 28 then .ok .hook "Short hook" (3/4)
  else if stamina ≥ 8 then .ok .jab "Body jab" (4/5)
  else .ok .jab "Quick jab" (3/5)

/-- FallbackAI._punch_range_action (mutates _combo_sequence). -/
def _punch_range_action (ai : FallbackAI) (my_stamina _opp_stamina : ℚ) :
    FallbackAI × DecideOutcome :=
  if ai._last_action = some .jab ∧ my_stamina ≥ 18 then
    ({ ai with _combo_sequence := ai._combo_sequence ++ [.cross] },
     .ok .cross "Jab-Cross combo" (4/5))
  else if ai._last_action = some .cross ∧ my_stamina ≥ 28 then
    ({ ai with _combo_sequence := ai._combo_sequence ++ [.hook] },
     .ok .hook "Combo finisher" (3/4))
  else if my_stamina ≥ 8 then (ai, .ok .jab "Starting combo" (7/10))
  else (ai, .ok .jab "In range attack" (7/10))

/-- FallbackAI._medium_range_action -/
def _medium_range_action (stamina : ℚ) : DecideOutcome :=
  if stamina ≥ 8 then .ok .jab "Range finder jab" (3/4)
  else .ok .jab "Closing in" (3/5)

/-- FallbackAI._default_action; choose_roll stands for the weighted-random
draw in PersonalityManager.choose_action. -/
def _default_action (ai : FallbackAI) (gs : GameStateDict) (choose_roll : ℚ) : DecideOutcome :=
  let action := ai.personality.choose_action 100 100 gs.my_stamina "medium" "idle" choose_roll
  .ok action "Standard play" (3/5)

/-- FallbackAI._get_alternative_action: the fixed rotation table, falling back
to JAB when the rotation target is unaffordable. -/
def _get_alternative_action (current : ActionType) (stamina : ℚ) : ActionType :=
  let next_action :=
    match current with
    | .jab => ActionType.cross
    | .cross => ActionType.hook
    | .hook => ActionType.jab
    | .block => ActionType.jab
    | .dodge => ActionType.jab
    | .idle => ActionType.jab
    | _ => ActionType.jab
  match ACTION_DATA_get next_action with
  | some action_data => if stamina ≥ action_data.stamina_cost then next_action else .jab
  | none => .jab

/-- FallbackAI._decide_action. -/
def _decide_action (ai : FallbackAI) (gs : GameStateDict) (choose_roll : ℚ) :
    FallbackAI × DecideOutcome :=
  if gs.opp_action = "JAB" ∨ gs.opp_action = "CROSS" ∨ gs.opp_action = "HOOK" ∨
      gs.opp_action = "UPPERCUT" then
    (ai, ai._respond_to_attack gs.opp_action gs.my_stamina gs.distance)
  else if gs.my_health < 20 then
    (ai, _desperate_mode gs.my_stamina gs.opp_health gs.distance)
  else if gs.opp_health < 20 ∧ (gs.distance = "punch" ∨ gs.distance = "clinch") then
    (ai, _finish_mode gs.my_stamina)
  else if gs.my_stamina < 20 then
    (ai, .ok .idle "Recovering stamina" (9/10))
  else if gs.distance = "far" then
    if gs.my_stamina ≥ 8 then (ai, .name_error)
    else (ai, .ok .jab "Closing distance" (3/5))
  else if gs.distance = "clinch" then (ai, _clinch_action gs.my_stamina)
  else if gs.distance = "punch" then ai._punch_range_action gs.my_stamina gs.opp_stamina
  else if gs.distance = "medium" then (ai, _medium_range_action gs.my_stamina)
  else (ai, ai._default_action gs choose_roll)

/-- FallbackAI.get_action.  Returns none when the NameError of the far branch
propagates; choose_roll, tt_gate and tt_choice stand for the random draws. -/
def get_action (ai : FallbackAI) (gs : GameStateDict)
    (choose_roll tt_gate : ℚ) (tt_choice : ℕ) : Option (FallbackAI × FallbackDecision) :=
  if !gs.can_act then
    some (ai, { action := .idle, reasoning := "Cannot act", trash_talk := "", confidence := 1 })
  else
    match ai._decide_action gs choose_roll with
    | (_, .name_error) => none
    | (ai, .ok action reasoning confidence) =>
        let rep : FallbackAI × ActionType × String × ℚ :=
          if some action = ai._last_action then
            let ai := { ai with _consecutive_same := ai._consecutive_same + 1 }
            if ai._consecutive_same > 3 then
              (ai, _get_alternative_action action gs.my_stamina, "Mixing it up",
               confidence * (4/5))
            else (ai, action, reasoning, confidence)
          else ({ ai with _consecutive_same := 0 }, action, reasoning, confidence)
        let ai : FallbackAI := { rep.1 with _last_action := some rep.2.1 }
        let trash_talk : String :=
          if ai._consecutive_same = 0 then ai.personality.get_trash_talk tt_gate tt_choice
          else ""
        some (ai, { action := rep.2.1, reasoning := rep.2.2.1, trash_talk := trash_talk,
                    confidence := rep.2.2.2 })

end FallbackAI

/-! ### Helper definitions and lemmas shared by the claim theorems -/

/-- The zone damage multiplier table (1.5 / 1.0 / 0.8), shared by
Hurtbox.get_damage_mult and the dict literal inside Fighter.receive_hit. -/
def zone_mult : HitZone → ℚ
  | .head => 3/2
  | .body => 1
  | .legs => 4/5

lemma Hurtbox.get_damage_mult_eq (b : Hurtbox) : b.get_damage_mult = zone_mult b.zone := by
  cases h : b.zone <;>
    simp [Hurtbox.get_damage_mult, zone_mult, h, HEAD_DAMAGE_MULT, BODY_DAMAGE_MULT,
      LEGS_DAMAGE_MULT]

/-- The fold in select_first_by_priority never increases the zone priority of
the accumulator. -/
lemma select_first_le (x : HitZone × ℚ) (xs : List (HitZone × ℚ)) :
    zone_priority (HurtboxManager.select_first_by_priority x xs).1 ≤ zone_priority x.1 := by
  induction xs generalizing x with
  | nil => simp [HurtboxManager.select_first_by_priority]
  | cons h t ih =>
      simp only [HurtboxManager.select_first_by_priority, List.foldl_cons]
      by_cases hlt : zone_priority h.1 < zone_priority x.1
      · simp only [hlt, if_pos]
        exact le_of_lt (lt_of_le_of_lt (ih h) hlt)
      · simp only [hlt, if_neg, if_false]
        exact ih x

/-- The selected entry has minimal zone priority among all collected hits. -/
lemma select_first_min (x : HitZone × ℚ) (xs : List (HitZone × ℚ)) :
    ∀ y ∈ x :: xs,
      zone_priority (HurtboxManager.select_first_by_priority x xs).1 ≤ zone_priority y.1 := by
  induction xs generalizing x with
  | nil =>
      intro y hy
      simp only [List.mem_singleton] at hy
      subst hy
      simp [HurtboxManager.select_first_by_priority]
  | cons h t ih =>
      intro y hy
      have step : HurtboxManager.select_first_by_priority x (h :: t) =
          HurtboxManager.select_first_by_priority
            (if zone_priority h.1 < zone_priority x.1 then h else x) t := by
        simp [HurtboxManager.select_first_by_priority]
      by_cases hc : zone_priority h.1 < zone_priority x.1
      · rw [step, if_pos hc]
        rcases List.mem_cons.mp hy with rfl | hy'
        · exact le_trans (select_first_le h t) (le_of_lt hc)
        · rcases List.mem_cons.mp hy' with rfl | hyt
          · exact select_first_le y t
          · exact ih h y (List.mem_cons_of_mem h hyt)
      · rw [step, if_neg hc]
        rcases List.mem_cons.mp hy with rfl | hy'
        · exact select_first_le y t
        · rcases List.mem_cons.mp hy' with rfl | hyt
          · exact le_trans (select_first_le x t) (le_of_not_lt hc)
          · exact ih x y (List.mem_cons_of_mem x hyt)

/-- The selected entry is one of the collected hits. -/
lemma select_first_mem (x : HitZone × ℚ) (xs : List (HitZone × ℚ)) :
    HurtboxManager.select_first_by_priority x xs ∈ x :: xs := by
  induction xs generalizing x with
  | nil => simp [HurtboxManager.select_first_by_priority]
  | cons h t ih =>
      have step : HurtboxManager.select_first_by_priority x (h :: t) =
          HurtboxManager.select_first_by_priority
            (if zone_priority h.1 < zone_priority x.1 then h else x) t := by
        simp [HurtboxManager.select_first_by_priority]
      rw [step]
      by_cases hc : zone_priority h.1 < zone_priority x.1
      · rw [if_pos hc]
        exact List.mem_cons_of_mem x (ih h)
      · rw [if_neg hc]
        rcases List.mem_cons.mp (ih x) with hx | hx
        · rw [hx]
          exact List.mem_cons_self x (h :: t)
        · exact List.mem_cons_of_mem x (List.mem_cons_of_mem h hx)

/-- Anatomy of a successful check_hit call: the reported zone and multiplier
come from one of the defender's active hurtboxes overlapped by the hitbox,
and the zone has minimal priority value among all of them. -/
lemma check_hit_spec (m : HurtboxManager) (hitbox : Hitbox)
    (attacker_pos : ℚ × ℚ) (attacker_facing : Bool)
    (defender_pos : ℚ × ℚ) (defender_facing : Bool) (zone : HitZone) (mult : ℚ)
    (hres : m.check_hit hitbox attacker_pos attacker_facing defender_pos defender_facing
      = some (zone, mult)) :
    (∃ hb ∈ m.hurtboxes, hb.is_active = true ∧
      aabb_overlap (hitbox.get_rect attacker_pos.1 attacker_pos.2 attacker_facing)
        (hb.get_rect defender_pos.1 defender_pos.2 defender_facing) = true ∧
      zone = hb.zone ∧ mult = hb.get_damage_mult) ∧
    (∀ hb ∈ m.hurtboxes, hb.is_active = true →
      aabb_overlap (hitbox.get_rect attacker_pos.1 attacker_pos.2 attacker_facing)
        (hb.get_rect defender_pos.1 defender_pos.2 defender_facing) = true →
      zone_priority zone ≤ zone_priority hb.zone) := by
  unfold HurtboxManager.check_hit at hres
  simp only [] at hres
  split at hres
  · exact absurd hres (by simp)
  · next x xs heq =>
      injection hres with h1
      constructor
      · have hsel := select_first_mem x xs
        rw [← heq, h1] at hsel
        obtain ⟨hb, hbfilter, hbeq⟩ := List.mem_map.mp hsel
        obtain ⟨hbmem, hbcond⟩ := List.mem_filter.mp hbfilter
        simp only [Bool.and_eq_true] at hbcond
        refine ⟨hb, hbmem, hbcond.1, hbcond.2, ?_, ?_⟩
        · exact (congrArg Prod.fst hbeq).symm
        · exact (congrArg Prod.snd hbeq).symm
      · intro hb hbmem hact hov
        have hin : (hb.zone, hb.get_damage_mult) ∈
            (m.hurtboxes.filter fun hurtbox =>
              hurtbox.is_active &&
              aabb_overlap (hitbox.get_rect attacker_pos.1 attacker_pos.2 attacker_facing)
                (hurtbox.get_rect defender_pos.1 defender_pos.2 defender_facing)).map
            (fun hurtbox => (hurtbox.zone, hurtbox.get_damage_mult)) :=
          List.mem_map_of_mem _ (List.mem_filter.mpr ⟨hbmem, by simp [hact, hov]⟩)
        rw [heq] at hin
        have hmin := select_first_min x xs (hb.zone, hb.get_damage_mult) hin
        rw [h1] at hmin
        exact hmin

/-! ### Claim theorems -/

/-- C10: with the invulnerability flag set, take_damage returns 0 and leaves
every field of the stats record unchanged, whatever the damage and the crit
and counter flags. -/
theorem C10_invulnerable_unchanged (s : FighterStats) (base_damage : ℚ)
    (is_crit is_counter : Bool) (h : s.is_invulnerable = true) :
    s.take_damage base_damage is_crit is_counter = (s, 0) := by
  simp [FighterStats.take_damage, h]

theorem C10_invulnerable_unchanged_witness :
    ({ is_invulnerable := true } : FighterStats).take_damage 37 true true =
      ({ is_invulnerable := true }, 0) :=
  C10_invulnerable_unchanged { is_invulnerable := true } 37 true true rfl

/-- C4: whenever check_hit reports a struck zone, that zone has minimal
priority value (HEAD 0 before BODY 1 before LEGS 2) among every active
hurtbox the hitbox overlaps; in particular, if a head hurtbox is among the
overlapped ones, HEAD is reported. -/
theorem C4_priority_head_first (m : HurtboxManager) (hitbox : Hitbox)
    (attacker_pos : ℚ × ℚ) (attacker_facing : Bool)
    (defender_pos : ℚ × ℚ) (defender_facing : Bool) (zone : HitZone) (mult : ℚ)
    (hres : m.check_hit hitbox attacker_pos attacker_facing defender_pos defender_facing
      = some (zone, mult)) :
    (∀ hb ∈ m.hurtboxes, hb.is_active = true →
      aabb_overlap (hitbox.get_rect attacker_pos.1 attacker_pos.2 attacker_facing)
        (hb.get_rect defender_pos.1 defender_pos.2 defender_facing) = true →
      zone_priority zone ≤ zone_priority hb.zone) ∧
    ((∃ hb ∈ m.hurtboxes, hb.is_active = true ∧
      aabb_overlap (hitbox.get_rect attacker_pos.1 attacker_pos.2 attacker_facing)
        (hb.get_rect defender_pos.1 defender_pos.2 defender_facing) = true ∧
      hb.zone = HitZone.head) → zone = HitZone.head) := by
  have hmem_min := (check_hit_spec m hitbox attacker_pos attacker_facing defender_pos
    defender_facing zone mult hres).2
  refine ⟨hmem_min, ?_⟩
  rintro ⟨hb, hmem, hact, hov, hhead⟩
  have := hmem_min hb hmem hact hov
  rw [hhead] at this
  cases zone with
  | head => rfl
  | body => simp [zone_priority] at this
  | legs => simp [zone_priority] at this

def C4_hitbox : Hitbox := { AttackHitboxes.create_jab false with is_active := true }

def C4_manager : HurtboxManager := { hurtboxes := HurtboxManager.attacking_hurtboxes }

def C4_body_hurtbox : Hurtbox :=
  { x_offset := -15, y_offset := 70, width := 50, height := 50, zone := .body }

unseal Rat.add Rat.mul Rat.inv Rat.sub in
theorem C4_priority_head_first_witness :
    C4_manager.check_hit C4_hitbox (400, 480) false (400, 480) false
      = some (HitZone.head, 3/2) ∧
    zone_priority HitZone.head ≤ zone_priority C4_body_hurtbox.zone := by
  have h : C4_manager.check_hit C4_hitbox (400, 480) false (400, 480) false
      = some (HitZone.head, 3/2) := by decide
  refine ⟨h, ?_⟩
  exact (C4_priority_head_first C4_manager C4_hitbox (400, 480) false (400, 480) false
    HitZone.head (3/2) h).1 C4_body_hurtbox (List.Mem.tail _ (List.Mem.head _)) (by decide)
    (by decide)

/-- C8: the has-struck flag makes each active window hit at most once: a
fighter whose current action has already struck never reports another hit
(and is left unchanged by the check); a successful check sets the flag; and
ticking the action state machine inside the action's frame span preserves the
flag. -/
theorem C8_single_hit_per_window :
    (∀ (f opponent : Fighter) (roll : ℤ) (crit_roll : ℚ) (ca : ActiveAction),
      f.current_action = some ca → ca.has_hit = true →
      f.check_hit_against opponent roll crit_roll = (f, none)) ∧
    (∀ (f opponent : Fighter) (roll : ℤ) (crit_roll : ℚ) (f' : Fighter) (hi : HitInfo),
      f.check_hit_against opponent roll crit_roll = (f', some hi) →
      ∃ ca', f'.current_action = some ca' ∧ ca'.has_hit = true) ∧
    (∀ (f : Fighter) (dt : ℚ) (ca : ActiveAction),
      f.current_action = some ca → ca.has_hit = true → ca.frame + 1 ≤ ca.total_frames →
      ∃ ca', (f._update_action dt).current_action = some ca' ∧ ca'.has_hit = true) := by
  refine ⟨?_, ?_, ?_⟩
  · intro f opponent roll crit_roll ca hca hhit
    unfold Fighter.check_hit_against
    rw [hca]
    cases hhb : ca.hitbox with
    | none => simp [hhb]
    | some hitbox => simp [hhb, hhit]
  · intro f opponent roll crit_roll f' hi h
    unfold Fighter.check_hit_against at h
    split at h
    · simp at h
    · next ca hca =>
        split at h
        · simp at h
        · next hitbox hhb =>
            split at h
            · simp at h
            · split at h
              · simp at h
              · split at h
                · simp at h
                · next zone mult hit_pos hcol =>
                    simp only [ACTION_DATA_get, Prod.mk.injEq] at h
                    exact ⟨{ ca with has_hit := true }, by rw [← h.1], rfl⟩
  · intro f dt ca hca hhit hin
    unfold Fighter._update_action
    rw [hca]
    simp only [ACTION_DATA_get]
    by_cases h1 : ca.frame + 1 ≤ ca.startup_frames
    · simp only [h1, if_pos]
      exact ⟨_, rfl, hhit⟩
    · by_cases h2 : ca.frame + 1 ≤ ca.startup_frames + ca.active_frames
      · simp only [h1, h2, if_neg, if_pos, if_false]
        exact ⟨_, rfl, hhit⟩
      · simp only [h1, h2, hin, if_neg, if_pos, if_false]
        exact ⟨_, rfl, hhit⟩

def C8_struck_action : ActiveAction :=
  { action_type := .jab, phase := .active, frame := 4, total_frames := 9,
    hitbox := some { AttackHitboxes.create_jab true with is_active := true },
    has_hit := true, startup_frames := 3, active_frames := 2, recovery_frames := 4 }

def C8_fighter : Fighter := { current_action := some C8_struck_action }

theorem C8_single_hit_per_window_witness :
    C8_fighter.check_hit_against { is_player_one := false } 10 1 = (C8_fighter, none) :=
  C8_single_hit_per_window.1 C8_fighter { is_player_one := false } 10 1 C8_struck_action rfl rfl

/-! Concrete two-fighter state in which both jab hitboxes overlap the other
fighter's head hurtbox in the same tick (both fighters at x = 400 facing
left; every armed attack rectangle extends to the attacker's right because
the facing baked into the AttackHitboxes offset is flipped a second time by
get_rect, so mutual overlap needs coinciding positions). -/

def trade_action (facing_right : Bool) : ActiveAction :=
  { action_type := .jab, phase := .active, frame := 4, total_frames := 9,
    hitbox := some { AttackHitboxes.create_jab facing_right with is_active := true },
    startup_frames := 3, active_frames := 2, recovery_frames := 4 }

def trade_fighter1 : Fighter :=
  { movement := { x := 400, facing_right := false },
    hurtbox_manager := { hurtboxes := HurtboxManager.attacking_hurtboxes },
    current_action := some (trade_action false) }

def trade_fighter2 : Fighter :=
  { movement := { x := 400, facing_right := false },
    hurtbox_manager := { hurtboxes := HurtboxManager.attacking_hurtboxes },
    current_action := some (trade_action false),
    is_player_one := false }

unseal Rat.add Rat.mul Rat.inv Rat.sub in
/-- C2 counterexample: both fighters' armed, not-yet-struck hitboxes overlap
the other's hurtboxes (both pre-tick collision checks succeed), yet the
engine tick reports a single hit, not a trade: processing fighter 1's hit
cancels fighter 2's action before fighter 2's hit is evaluated. -/
theorem C2_counterexample :
    (trade_fighter1.check_hit_against trade_fighter2 10 1).2.isSome = true ∧
    (trade_fighter2.check_hit_against trade_fighter1 10 1).2.isSome = true ∧
    ∃ r, (CombatEngine.update {} (1/60) trade_fighter1 trade_fighter2 10 1 10 1).2.2.2
      = some (CombinedResult.hit r) ∧ r.attacker = 0 := by
  refine ⟨by decide, by decide, ?_⟩
  refine ⟨{ attacker := 0, defender := 1, damage := 45/2, raw_damage := 45/2,
            hit_zone := .head, hit_position := (435, 735/2), is_crit := false,
            is_counter := false, is_blocked := false, combo_count := 1, big_hit := false,
            shake_amount := 3, knockdown := false, knocked_down := none }, by decide, rfl⟩

/-- The damage rule exactly as claim C3 states it: uniform base roll × power
modifier × one zone multiplier × combo multiplier ÷ defense (crit, counter,
guard and exhaustion multipliers all 1 here), floored to a non-negative
integer. -/
def C3_claimed_subtracted (roll : ℤ) (power_modifier zmult combo_mult defense : ℚ) : ℤ :=
  max 0 ⌊(roll : ℚ) * power_modifier * zmult * combo_mult / defense⌋

unseal Rat.add Rat.mul Rat.inv Rat.sub in
/-- C3 counterexample: a head jab with base roll 10 against a fresh defender.
The claim's formula subtracts 10 × 1.0 × 1.5 × 1.0 = 15 (floored); the code
subtracts 22.5 — the zone multiplier is applied a second time inside
receive_hit, the combo multiplier is never applied, and nothing is floored. -/
theorem C3_counterexample :
    (trade_fighter1.check_hit_against trade_fighter2 10 1).2 =
      some { damage := 15, hit_zone := .head, hit_position := (435, 735/2),
             is_crit := false, is_counter := false, action := .jab } ∧
    trade_fighter2.stats.health -
      ((trade_fighter2.receive_hit 15 .head 400 false false).1).stats.health = 45/2 ∧
    C3_claimed_subtracted 10 1 (3/2) 1 1 = 15 ∧
    (45/2 : ℚ) ≠ 15 := by
  refine ⟨by decide, by decide, by decide, by decide⟩

def C5_fighter : Fighter := { stats := { stamina := 0 } }

unseal Rat.add Rat.mul Rat.inv Rat.sub in
/-- C5 counterexample: with stamina exactly 0 the claim demands rejection,
but execute_action(IDLE) (stamina cost 0) succeeds and starts the action. -/
theorem C5_counterexample :
    C5_fighter.stats.stamina = 0 ∧
    (C5_fighter.execute_action .idle).2 = true ∧
    (C5_fighter.execute_action .idle).1.current_action.isSome = true := by
  refine ⟨by decide, by decide, by decide⟩

/-- The phase rule as claim C6 states it: the elapsed-frame counter compared
against the cumulative catalog thresholds scaled by the speed modifier (an
exhausted combatant's thresholds grow by the reciprocal of its modifier). -/
def spec_scaled_phase (data : ActionData) (speed_modifier : ℚ) (frame : ℕ) : ActionPhase :=
  if (frame : ℚ) ≤ (data.startup_frames : ℚ) / speed_modifier then .startup
  else if (frame : ℚ) ≤ ((data.startup_frames : ℚ) + data.active_frames) / speed_modifier then
    .active
  else if (frame : ℚ) ≤ ((data.startup_frames : ℚ) + data.active_frames +
      data.recovery_frames) / speed_modifier then .recovery
  else .none

def C6_hook_action : ActiveAction :=
  { action_type := .hook, phase := .startup, frame := 7, total_frames := 18,
    startup_frames := 7, active_frames := 3, recovery_frames := 8 }

def C6_exhausted : Fighter :=
  { stats := { stamina := 0, is_exhausted := true }, current_action := some C6_hook_action }

def C6_fresh : Fighter := { current_action := some C6_hook_action }

unseal Rat.add Rat.mul Rat.inv Rat.sub in
/-- C6 counterexample: at frame 8 of a hook (startup 7) an exhausted fighter
(speed modifier 0.8) enters ACTIVE exactly like a fresh one, while the
claimed scaled threshold 7 / 0.8 = 8.75 would still put it in STARTUP: the
speed modifier never reaches the phase comparison. -/
theorem C6_counterexample :
    C6_exhausted.stats.get_speed_modifier = 4/5 ∧
    C6_fresh.stats.get_speed_modifier = 1 ∧
    (C6_exhausted._update_action (1/60)).current_action.map (fun ca => ca.phase)
      = some .active ∧
    (C6_fresh._update_action (1/60)).current_action.map (fun ca => ca.phase)
      = some .active ∧
    spec_scaled_phase (ACTION_DATA .hook) (4/5) 8 = .startup ∧
    spec_scaled_phase (ACTION_DATA .hook) 1 8 = .active := by
  refine ⟨by decide, by decide, by decide, by decide, by decide, by decide⟩

def C7_engine : CombatEngine :=
  { combo_trackers := ({}, { current_count := 1, combo_timer := 1/2 }) }

unseal Rat.add Rat.mul Rat.inv Rat.sub in
/-- C7 counterexample: fighter 2's Combo Tracker holds a running count of 1;
fighter 1 lands a hit on fighter 2 in this tick, yet fighter 2's tracker
still holds count 1 afterwards — taking a hit as defender does not zero the
defender's ComboTracker. -/
theorem C7_counterexample :
    (∃ r, (CombatEngine.update C7_engine (1/60) trade_fighter1 trade_fighter2 10 1 10 1).2.2.2
        = some (CombinedResult.hit r) ∧ r.defender = 1) ∧
    (CombatEngine.update C7_engine (1/60) trade_fighter1 trade_fighter2
        10 1 10 1).1.combo_trackers.2.current_count = 1 := by
  refine ⟨⟨{ attacker := 0, defender := 1, damage := 45/2, raw_damage := 45/2,
             hit_zone := .head, hit_position := (435, 735/2), is_crit := false,
             is_counter := false, is_blocked := false, combo_count := 1, big_hit := false,
             shake_amount := 3, knockdown := false, knocked_down := none }, by decide, rfl⟩,
         by decide⟩

def C9_gs : GameStateDict := { opp_action := "HOOK" }

def C9_dummy : FallbackAI × FallbackDecision :=
  ({}, { action := .idle, reasoning := "", trash_talk := "", confidence := 0 })

def C9_step (st : FallbackAI × FallbackDecision) : FallbackAI × FallbackDecision :=
  (st.1.get_action C9_gs 0 1 0).getD C9_dummy

def C9_c1 : FallbackAI × FallbackDecision := C9_step C9_dummy
def C9_c2 : FallbackAI × FallbackDecision := C9_step C9_c1
def C9_c3 : FallbackAI × FallbackDecision := C9_step C9_c2
def C9_c4 : FallbackAI × FallbackDecision := C9_step C9_c3
def C9_c5 : FallbackAI × FallbackDecision := C9_step C9_c4

unseal Rat.add Rat.mul Rat.inv Rat.sub in
/-- C9 counterexample: responding to an opponent HOOK always decides DODGE;
the fourth consecutive call still returns DODGE (the claim demands a
substitution on that fourth choice), and the substitution (to JAB via the
rotation table) only happens on the fifth call. -/
theorem C9_counterexample :
    C9_c1.2.action = .dodge ∧ C9_c2.2.action = .dodge ∧ C9_c3.2.action = .dodge ∧
    C9_c4.2.action = .dodge ∧ C9_c5.2.action = .jab := by
  refine ⟨by decide, by decide, by decide, by decide, by decide⟩

/-- The phase rule the code actually implements: the elapsed-frame counter
compared against the raw cumulative catalog thresholds, with no speed
scaling. -/
def unscaled_phase (startup_frames active_frames total_frames frame : ℕ) : ActionPhase :=
  if frame ≤ startup_frames then .startup
  else if frame ≤ startup_frames + active_frames then .active
  else if frame ≤ total_frames then .recovery
  else .none

/-- Inside the action's frame span, one tick of _update_action increments the
frame counter, keeps the has-struck flag, and sets the phase by the raw
(unscaled) cumulative-threshold comparison. -/
lemma update_action_in_window (f : Fighter) (dt : ℚ) (ca : ActiveAction)
    (hca : f.current_action = some ca) (hin : ca.frame + 1 ≤ ca.total_frames) :
    ∃ ca', (f._update_action dt).current_action = some ca' ∧ ca'.frame = ca.frame + 1 ∧
      ca'.has_hit = ca.has_hit ∧
      ca'.phase = unscaled_phase ca.startup_frames ca.active_frames ca.total_frames
        (ca.frame + 1) := by
  unfold Fighter._update_action
  rw [hca]
  simp only [ACTION_DATA_get, unscaled_phase]
  by_cases h1 : ca.frame + 1 ≤ ca.startup_frames
  · simp only [h1, if_pos]
    exact ⟨_, rfl, rfl, rfl, rfl⟩
  · by_cases h2 : ca.frame + 1 ≤ ca.startup_frames + ca.active_frames
    · simp only [h1, h2, if_neg, if_pos, if_false]
      exact ⟨_, rfl, rfl, rfl, rfl⟩
    · simp only [h1, h2, hin, if_neg, if_pos, if_false]
      exact ⟨_, rfl, rfl, rfl, rfl⟩

/-- C6 (amended): each tick advances the elapsed-frame counter by one and the
phase is the raw cumulative-threshold comparison; it does not depend on the
combatant's stats (speed modifier, exhaustion) at all, so an exhausted
combatant progresses through the phases at exactly the same rate. -/
theorem C6_phase_unscaled (f : Fighter) (dt : ℚ) (ca : ActiveAction)
    (hca : f.current_action = some ca) (hin : ca.frame + 1 ≤ ca.total_frames) :
    (∃ ca', (f._update_action dt).current_action = some ca' ∧ ca'.frame = ca.frame + 1 ∧
      ca'.phase = unscaled_phase ca.startup_frames ca.active_frames ca.total_frames
        (ca.frame + 1)) ∧
    ∀ (stats' : FighterStats),
      (Fighter._update_action { f with stats := stats' } dt).current_action.map
          (fun c => c.phase)
        = ((f._update_action dt)).current_action.map (fun c => c.phase) := by
  constructor
  · obtain ⟨ca', h1, h2, _, h4⟩ := update_action_in_window f dt ca hca hin
    exact ⟨ca', h1, h2, h4⟩
  · intro stats'
    obtain ⟨ca1, h1, _, _, hp1⟩ := update_action_in_window f dt ca hca hin
    obtain ⟨ca2, h2, _, _, hp2⟩ :=
      update_action_in_window { f with stats := stats' } dt ca hca hin
    rw [h1, h2]
    simp [hp1, hp2]

unseal Rat.add Rat.mul Rat.inv Rat.sub in
theorem C6_phase_unscaled_witness :
    ∃ ca', (C6_exhausted._update_action (1/60)).current_action = some ca' ∧
      ca'.frame = 7 + 1 ∧
      ca'.phase = unscaled_phase 7 3 18 (7 + 1) :=
  (C6_phase_unscaled C6_exhausted (1/60) C6_hook_action rfl (by decide)).1

/-- C7 (amended): the Combo Tracker is zeroed (count, accumulated damage and
sequence buffer) exactly when its expiry timer elapses; an update that leaves
the timer positive keeps the count; add_hit increments the count by exactly
one; and processing a hit leaves the defender's tracker untouched (only the
defender's stats.combo_count is zeroed, inside take_damage). -/
theorem C7_combo_reset_paths :
    (∀ (t : ComboTracker) (dt : ℚ), t.combo_timer > 0 → t.combo_timer ≤ dt →
      (t.update dt).current_count = 0 ∧ (t.update dt).total_damage = 0 ∧
      (t.update dt).hit_sequence = []) ∧
    (∀ (t : ComboTracker) (dt : ℚ), t.combo_timer > 0 → dt < t.combo_timer →
      (t.update dt).current_count = t.current_count) ∧
    (∀ (t : ComboTracker) (a : ActionType) (d : ℚ),
      (t.add_hit a d).1.current_count = t.current_count + 1) ∧
    (∀ (e : CombatEngine) (hi : HitInfo) (attacker defender : Fighter),
      (e._process_hit hi 0 1 attacker defender).1.combo_trackers.2 = e.combo_trackers.2 ∧
      (e._process_hit hi 1 0 attacker defender).1.combo_trackers.1 = e.combo_trackers.1) ∧
    (∀ (s : FighterStats) (b : ℚ) (c k : Bool), s.is_invulnerable = false →
      (s.take_damage b c k).1.combo_count = 0) := by
  refine ⟨?_, ?_, ?_, ?_, ?_⟩
  · intro t dt h1 h2
    have h3 : t.combo_timer - dt ≤ 0 := sub_nonpos.mpr h2
    unfold ComboTracker.update
    rw [if_pos h1]
    simp only [h3, if_pos]
    exact ⟨rfl, rfl, rfl⟩
  · intro t dt h1 h2
    have h3 : ¬(t.combo_timer - dt ≤ 0) := by
      intro hc
      exact absurd (sub_pos.mpr h2) (not_lt.mpr hc)
    unfold ComboTracker.update
    rw [if_pos h1]
    simp only [h3, if_neg, if_false]
  · intro t a d
    unfold ComboTracker.add_hit
    dsimp only
    repeat' split
    all_goals rfl
  · intro e hi attacker defender
    constructor <;>
      · unfold CombatEngine._process_hit CombatEngine.tracker_set CombatEngine.tracker_get
          CombatEngine._update_momentum
        split
        · rfl
        · simp
  · intro s b c k h
    unfold FighterStats.take_damage
    rw [if_neg (by simp [h])]

unseal Rat.add Rat.mul Rat.inv Rat.sub in
theorem C7_combo_reset_paths_witness :
    (ComboTracker.update
        { current_count := 2, total_damage := 30, hit_sequence := [.jab], combo_timer := 1/10 }
        (1/5)).current_count = 0 ∧
    (ComboTracker.add_hit { current_count := 2, combo_timer := 1/2 } .jab 10).1.current_count
      = 2 + 1 :=
  ⟨(C7_combo_reset_paths.1 _ (1/5) (by decide) (by decide)).1,
   C7_combo_reset_paths.2.2.1 _ .jab 10⟩

/-- C9 (amended): the repetition guard substitutes via the rotation table only
once the decided action equals the remembered last action with the
consecutive-repeat counter already at 3 or more — i.e. on the fifth (or
later) consecutive identical choice, not the fourth; the substituted action
is _get_alternative_action's rotation-table entry for the repeated action. -/
theorem C9_substitution_on_fifth (ai : FallbackAI) (gs : GameStateDict)
    (choose_roll tt_gate : ℚ) (tt_choice : ℕ) (ai' : FallbackAI) (a : ActionType)
    (reasoning : String) (conf : ℚ)
    (hact : gs.can_act = true)
    (hdec : ai._decide_action gs choose_roll = (ai', DecideOutcome.ok a reasoning conf))
    (hlast : ai'._last_action = some a)
    (hcnt : ai'._consecutive_same ≥ 3) :
    ∃ st dec, ai.get_action gs choose_roll tt_gate tt_choice = some (st, dec) ∧
      dec.action = FallbackAI._get_alternative_action a gs.my_stamina ∧
      dec.reasoning = "Mixing it up" := by
  unfold FallbackAI.get_action
  rw [hact]
  simp only [Bool.not_true, Bool.false_eq_true, if_false]
  rw [hdec]
  simp only [hlast, if_pos rfl]
  have hgt : ai'._consecutive_same + 1 > 3 := by omega
  simp only [hgt, if_pos]
  exact ⟨_, _, rfl, rfl, rfl⟩

def C9_repeat_state : FallbackAI :=
  { personality :=
      { personality_name := "balanced",
        traits := { aggression := 1/2, patience := 1/2, risk_tolerance := 1/2,
                    adaptability := 1/2, trash_talk_freq := 1/2 } },
    _last_action := some .dodge, _consecutive_same := 3 }

lemma use_stamina_false_iff (s : FighterStats) (amount : ℚ) :
    (s.use_stamina amount).2 = false ↔ s.stamina < amount ∧ ¬s.stamina > 0 := by
  unfold FighterStats.use_stamina
  by_cases h1 : s.stamina ≥ amount
  · simp [h1, not_lt.mpr h1]
  · by_cases h2 : s.stamina > 0
    · simp [h1, h2]
    · simp [h1, h2, lt_of_not_ge h1]

lemma use_stamina_partial_spend (s : FighterStats) (amount : ℚ)
    (h0 : 0 < s.stamina) (hlt : s.stamina < amount) :
    s.use_stamina amount = ({ s with stamina := 0 }, true) := by
  unfold FighterStats.use_stamina
  rw [if_neg (not_le.mpr hlt), if_pos h0]

lemma exec_cannot_act (f : Fighter) (a : ActionType) (h : f.stats.can_act = false) :
    f.execute_action a = (f, false) := by
  unfold Fighter.execute_action
  rw [if_pos (by rw [h]; rfl)]

lemma exec_busy_not_eligible (f : Fighter) (a : ActionType) (ca : ActiveAction)
    (hact : f.stats.can_act = true) (hca : f.current_action = some ca)
    (hc : ¬(ca.phase = ActionPhase.recovery ∧ f.action_queue.length < 2)) :
    f.execute_action a = (f, false) := by
  unfold Fighter.execute_action
  rw [if_neg (by rw [hact]; simp), hca]
  dsimp only
  rw [if_neg hc]

lemma exec_busy_no_chain (f : Fighter) (a : ActionType) (ca : ActiveAction)
    (hact : f.stats.can_act = true) (hca : f.current_action = some ca)
    (hc : ca.phase = ActionPhase.recovery ∧ f.action_queue.length < 2)
    (hch : ¬(ACTION_DATA a).can_chain > 1) :
    f.execute_action a = (f, false) := by
  unfold Fighter.execute_action
  rw [if_neg (by rw [hact]; simp), hca]
  dsimp only [ACTION_DATA_get]
  rw [if_pos hc, if_neg hch]

lemma exec_busy_chain (f : Fighter) (a : ActionType) (ca : ActiveAction)
    (hact : f.stats.can_act = true) (hca : f.current_action = some ca)
    (hc : ca.phase = ActionPhase.recovery ∧ f.action_queue.length < 2)
    (hch : (ACTION_DATA a).can_chain > 1) :
    f.execute_action a = ({ f with action_queue := f.action_queue ++ [a] }, true) := by
  unfold Fighter.execute_action
  rw [if_neg (by rw [hact]; simp), hca]
  dsimp only [ACTION_DATA_get]
  rw [if_pos hc, if_pos hch]

lemma exec_stamina_fail (f : Fighter) (a : ActionType)
    (hact : f.stats.can_act = true) (hca : f.current_action = none)
    (h1 : ¬f.stats.stamina ≥ (ACTION_DATA a).stamina_cost) (h2 : ¬f.stats.stamina > 0) :
    f.execute_action a = (f, false) := by
  obtain ⟨st, mv, hm, ip, cura, q, la, cw, anim, afr, atm, ft⟩ := f
  simp only at hca hact h1 h2
  subst hca
  unfold Fighter.execute_action FighterStats.use_stamina
  rw [if_neg (by rw [hact]; simp)]
  dsimp only [ACTION_DATA_get]
  rw [if_neg h1, if_neg h2]
  rfl

lemma exec_stamina_ok_succeeds (f : Fighter) (a : ActionType)
    (hact : f.stats.can_act = true) (hca : f.current_action = none)
    (hus : (f.stats.use_stamina (ACTION_DATA a).stamina_cost).2 = true) :
    (f.execute_action a).2 = true := by
  unfold Fighter.execute_action
  rw [if_neg (by rw [hact]; simp), hca]
  dsimp only [ACTION_DATA_get]
  rw [if_neg (by rw [hus]; simp)]

lemma execute_fail_iff (f : Fighter) (a : ActionType) :
    (f.execute_action a).2 = false ↔
      f.stats.can_act = false ∨
      (∃ ca, f.current_action = some ca ∧
        ¬(ca.phase = ActionPhase.recovery ∧ f.action_queue.length < 2 ∧
          (ACTION_DATA a).can_chain > 1)) ∨
      (f.stats.can_act = true ∧ f.current_action = none ∧
        f.stats.stamina < (ACTION_DATA a).stamina_cost ∧ ¬f.stats.stamina > 0) := by
  by_cases hact : f.stats.can_act = true
  · cases hca : f.current_action with
    | some ca =>
        by_cases hc : ca.phase = ActionPhase.recovery ∧ f.action_queue.length < 2
        · by_cases hch : (ACTION_DATA a).can_chain > 1
          · rw [exec_busy_chain f a ca hact hca hc hch]
            simp only [Bool.true_eq_false, false_iff]
            push_neg
            refine ⟨by simp [hact], fun ca' hca' => ?_, by simp⟩
            injection hca' with h
            subst h
            exact ⟨hc.1, hc.2, hch⟩
          · rw [exec_busy_no_chain f a ca hact hca hc hch]
            simp only [true_iff]
            exact Or.inr (Or.inl ⟨ca, rfl, fun h => hch h.2.2⟩)
        · rw [exec_busy_not_eligible f a ca hact hca hc]
          simp only [true_iff]
          exact Or.inr (Or.inl ⟨ca, rfl, fun h => hc ⟨h.1, h.2.1⟩⟩)
    | none =>
        by_cases h1 : f.stats.stamina ≥ (ACTION_DATA a).stamina_cost
        · have hus : (f.stats.use_stamina (ACTION_DATA a).stamina_cost).2 = true := by
            unfold FighterStats.use_stamina
            rw [if_pos h1]
          rw [exec_stamina_ok_succeeds f a hact hca hus]
          simp only [Bool.true_eq_false, false_iff]
          push_neg
          refine ⟨by simp [hact], fun ca' hca' => ?_, fun _ _ h3 => ?_⟩
          · exact absurd hca' (by simp)
          · exact absurd h1 (not_le.mpr h3)
        · by_cases h2 : f.stats.stamina > 0
          · have hus : (f.stats.use_stamina (ACTION_DATA a).stamina_cost).2 = true := by
              unfold FighterStats.use_stamina
              rw [if_neg h1, if_pos h2]
            rw [exec_stamina_ok_succeeds f a hact hca hus]
            simp only [Bool.true_eq_false, false_iff]
            push_neg
            refine ⟨by simp [hact], fun ca' hca' => ?_, fun _ _ _ => by simp [h2]⟩
            exact absurd hca' (by simp)
          · rw [exec_stamina_fail f a hact hca h1 h2]
            simp only [true_iff]
            exact Or.inr (Or.inr ⟨hact, trivial, lt_of_not_ge h1, h2⟩)
  · have hact' : f.stats.can_act = false := by
      revert hact
      cases f.stats.can_act <;> simp
    rw [exec_cannot_act f a hact']
    simp only [true_iff]
    exact Or.inl hact'

lemma execute_fail_unchanged (f : Fighter) (a : ActionType)
    (h : (f.execute_action a).2 = false) : (f.execute_action a).1 = f := by
  by_cases hact : f.stats.can_act = true
  · cases hca : f.current_action with
    | some ca =>
        by_cases hc : ca.phase = ActionPhase.recovery ∧ f.action_queue.length < 2
        · by_cases hch : (ACTION_DATA a).can_chain > 1
          · rw [exec_busy_chain f a ca hact hca hc hch] at h
            simp at h
          · rw [exec_busy_no_chain f a ca hact hca hc hch]
        · rw [exec_busy_not_eligible f a ca hact hca hc]
    | none =>
        by_cases h1 : f.stats.stamina ≥ (ACTION_DATA a).stamina_cost
        · have hus : (f.stats.use_stamina (ACTION_DATA a).stamina_cost).2 = true := by
            unfold FighterStats.use_stamina
            rw [if_pos h1]
          rw [exec_stamina_ok_succeeds f a hact hca hus] at h
          simp at h
        · by_cases h2 : f.stats.stamina > 0
          · have hus : (f.stats.use_stamina (ACTION_DATA a).stamina_cost).2 = true := by
              unfold FighterStats.use_stamina
              rw [if_neg h1, if_pos h2]
            rw [exec_stamina_ok_succeeds f a hact hca hus] at h
            simp at h
          · rw [exec_stamina_fail f a hact hca h1 h2]
  · have hact' : f.stats.can_act = false := by
      revert hact
      cases f.stats.can_act <;> simp
    rw [exec_cannot_act f a hact']

lemma execute_partial_spend (f : Fighter) (a : ActionType)
    (hact : f.stats.can_act = true) (hca : f.current_action = none)
    (h0 : 0 < f.stats.stamina) (hlt : f.stats.stamina < (ACTION_DATA a).stamina_cost) :
    (f.execute_action a).2 = true ∧ (f.execute_action a).1.stats.stamina = 0 ∧
    ∃ ca, (f.execute_action a).1.current_action = some ca ∧ ca.action_type = a := by
  unfold Fighter.execute_action
  rw [if_neg (by rw [hact]; simp), hca]
  dsimp only [ACTION_DATA_get]
  rw [use_stamina_partial_spend f.stats (ACTION_DATA a).stamina_cost h0 hlt]
  cases a <;> simp [Fighter._set_animation_for_action]

/-- C5 (amended): execute_action fails, leaving the fighter unchanged, exactly
when the fighter cannot act (stunned or knocked out), or a current action
exists that is not in RECOVERY with a chain-eligible new action and room in
the two-slot queue, or stamina is not positive while the catalog cost
exceeds it (an unknown identifier cannot occur: the catalog covers every
action type; IDLE's cost 0 succeeds even at stamina 0); with no current
action and 0 < stamina < cost it succeeds, spends all remaining stamina, and
the action still begins. -/
theorem C5_execute_contract (f : Fighter) (a : ActionType) :
    ((f.execute_action a).2 = false ↔
      f.stats.can_act = false ∨
      (∃ ca, f.current_action = some ca ∧
        ¬(ca.phase = ActionPhase.recovery ∧ f.action_queue.length < 2 ∧
          (ACTION_DATA a).can_chain > 1)) ∨
      (f.stats.can_act = true ∧ f.current_action = none ∧
        f.stats.stamina < (ACTION_DATA a).stamina_cost ∧ ¬f.stats.stamina > 0)) ∧
    ((f.execute_action a).2 = false → (f.execute_action a).1 = f) ∧
    (f.stats.can_act = true → f.current_action = none → 0 < f.stats.stamina →
      f.stats.stamina < (ACTION_DATA a).stamina_cost →
      (f.execute_action a).2 = true ∧ (f.execute_action a).1.stats.stamina = 0 ∧
      ∃ ca, (f.execute_action a).1.current_action = some ca ∧ ca.action_type = a) :=
  ⟨execute_fail_iff f a, execute_fail_unchanged f a,
   fun hact hca h0 hlt => execute_partial_spend f a hact hca h0 hlt⟩

lemma check_collision_mult (hitbox : Hitbox) (m : HurtboxManager)
    (attacker_pos : ℚ × ℚ) (attacker_facing : Bool)
    (defender_pos : ℚ × ℚ) (defender_facing : Bool) (zone : HitZone) (mult : ℚ)
    (pos : ℚ × ℚ)
    (h : check_collision hitbox m attacker_pos attacker_facing defender_pos defender_facing
      = some (zone, mult, pos)) :
    mult = zone_mult zone := by
  unfold check_collision at h
  split at h
  · next z' m' heq =>
      simp only [Option.some.injEq, Prod.mk.injEq] at h
      obtain ⟨⟨hb, _, _, _, hz, hm⟩, _⟩ :=
        check_hit_spec m hitbox attacker_pos attacker_facing defender_pos defender_facing
          z' m' heq
      rw [← h.1, ← h.2.1, hz, hm, Hurtbox.get_damage_mult_eq]
  · exact absurd h (by simp)

lemma take_damage_health (s : FighterStats) (b : ℚ) (c k : Bool) :
    (s.take_damage b c k).1.health = s.health - (s.take_damage b c k).2 := by
  unfold FighterStats.take_damage
  split
  · simp
  · dsimp only
    split
    · exact max_eq_right (sub_nonneg.mpr (min_le_right _ _))
    · exact max_eq_right (sub_nonneg.mpr (min_le_right _ _))

lemma take_damage_actual (s : FighterStats) (b : ℚ) (c k : Bool)
    (hinv : s.is_invulnerable = false) :
    (s.take_damage b c k).2 =
      min ((b * (if c then CRIT_MULTIPLIER else 1) * (if k then COUNTER_MULTIPLIER else 1)
        / s.defense) * (if s.is_blocking then 1 - BLOCK_REDUCTION else 1)) s.health := by
  unfold FighterStats.take_damage
  rw [if_neg (by simp [hinv])]
  dsimp only
  cases c <;> cases k <;> by_cases hb : s.is_blocking = true <;>
    simp only [hb, Bool.false_eq_true, if_pos, if_neg, if_true, if_false,
      Bool.true_eq_false, not_false_eq_true] <;>
    · congr 1
      ring

lemma stats_health_after_receive (f : Fighter) (damage : ℚ) (z : HitZone) (ax : ℚ)
    (c k : Bool) :
    ((f.receive_hit damage z ax c k).1).stats.health
      = (f.stats.take_damage (damage * zone_mult z) c k).1.health := by
  have hz : (match z with
    | HitZone.head => (3/2 : ℚ)
    | HitZone.body => 1
    | HitZone.legs => 4/5) = zone_mult z := by cases z <;> rfl
  unfold Fighter.receive_hit
  rw [hz]
  dsimp only
  repeat' split
  all_goals rfl

/-- C3 (amended): a landed hit subtracts min(d, health) from the defender's
health where d = base roll × attacker power modifier (×0.7 when exhausted)
× the struck zone's multiplier applied twice (once in check_hit_against and
once more in receive_hit) × 2.0 on crit × 1.5 on counter ÷ defender defense
× 0.3 when the defender is blocking; the Combo Tracker multiplier is never
applied and the subtracted amount is not floored (only the damage-taken
statistic is truncated). -/
theorem C3_damage_formula (attacker defender : Fighter) (roll : ℤ)
    (crit_roll attacker_x : ℚ) (ca : ActiveAction) (hb : Hitbox) (zone : HitZone)
    (mult : ℚ) (pos : ℚ × ℚ)
    (hca : attacker.current_action = some ca) (hhb : ca.hitbox = some hb)
    (hact : hb.is_active = true) (hstruck : ca.has_hit = false)
    (hcol : check_collision hb defender.hurtbox_manager attacker.movement.get_position
      attacker.movement.facing_right defender.movement.get_position
      defender.movement.facing_right = some (zone, mult, pos))
    (hinv : defender.stats.is_invulnerable = false) :
    ∃ f' hi, attacker.check_hit_against defender roll crit_roll = (f', some hi) ∧
      hi.damage = (roll : ℚ) * attacker.stats.get_damage_modifier * zone_mult zone ∧
      hi.hit_zone = zone ∧
      ((defender.receive_hit hi.damage hi.hit_zone attacker_x hi.is_crit
          hi.is_counter).1).stats.health
        = defender.stats.health -
          min (((roll : ℚ) * attacker.stats.get_damage_modifier * zone_mult zone
              * zone_mult zone
              * (if hi.is_crit then CRIT_MULTIPLIER else 1)
              * (if hi.is_counter then COUNTER_MULTIPLIER else 1) / defender.stats.defense)
              * (if defender.stats.is_blocking then 1 - BLOCK_REDUCTION else 1))
            defender.stats.health := by
  have hmult : mult = zone_mult zone :=
    check_collision_mult hb defender.hurtbox_manager attacker.movement.get_position
      attacker.movement.facing_right defender.movement.get_position
      defender.movement.facing_right zone mult pos hcol
  have hcheck : attacker.check_hit_against defender roll crit_roll =
      ({ attacker with current_action := some { ca with has_hit := true } },
       some { damage := (roll : ℚ) * attacker.stats.get_damage_modifier * mult,
              hit_zone := zone, hit_position := pos,
              is_crit := decide (crit_roll < (ACTION_DATA ca.action_type).crit_bonus),
              is_counter := match defender.current_action with
                | some oa => decide (oa.phase = ActionPhase.startup)
                | none => false,
              action := ca.action_type }) := by
    unfold Fighter.check_hit_against
    rw [hca]
    dsimp only
    rw [hhb]
    dsimp only
    rw [if_neg (by rw [hact]; simp), if_neg (by rw [hstruck]; simp), hcol]
    dsimp only [ACTION_DATA_get]
  refine ⟨_, _, hcheck, by rw [hmult], rfl, ?_⟩
  rw [stats_health_after_receive, take_damage_health, take_damage_actual _ _ _ _ hinv]
  congr 2
  rw [hmult]

unseal Rat.add Rat.mul Rat.inv Rat.sub in
theorem C3_damage_formula_witness :
    ∃ f' hi, trade_fighter1.check_hit_against trade_fighter2 10 1 = (f', some hi) ∧
      hi.damage = ((10 : ℤ) : ℚ) * trade_fighter1.stats.get_damage_modifier
        * zone_mult .head ∧
      hi.hit_zone = HitZone.head ∧
      ((trade_fighter2.receive_hit hi.damage hi.hit_zone 400 hi.is_crit
          hi.is_counter).1).stats.health
        = trade_fighter2.stats.health -
          min ((((10 : ℤ) : ℚ) * trade_fighter1.stats.get_damage_modifier * zone_mult .head
              * zone_mult .head
              * (if hi.is_crit then CRIT_MULTIPLIER else 1)
              * (if hi.is_counter then COUNTER_MULTIPLIER else 1)
              / trade_fighter2.stats.defense)
              * (if trade_fighter2.stats.is_blocking then 1 - BLOCK_REDUCTION else 1))
            trade_fighter2.stats.health :=
  C3_damage_formula trade_fighter1 trade_fighter2 10 1 400 (trade_action false)
    { AttackHitboxes.create_jab false with is_active := true } HitZone.head (3/2)
    (435, 735/2) rfl rfl rfl rfl (by decide) rfl

lemma take_damage_is_blocking (s : FighterStats) (b : ℚ) (c k : Bool) :
    (s.take_damage b c k).1.is_blocking = s.is_blocking := by
  unfold FighterStats.take_damage
  repeat' split
  all_goals rfl

/-- After a hit that deals positive damage to a non-blocking defender, the
defender has no current action: either it had none, or the interruption rule
in receive_hit cancelled it. -/
lemma receive_hit_cancel (f : Fighter) (damage : ℚ) (z : HitZone) (ax : ℚ) (c k : Bool)
    (hblock : f.stats.is_blocking = false)
    (hdmg : 0 < (f.stats.take_damage (damage * zone_mult z) c k).2) :
    (f.receive_hit damage z ax c k).1.current_action = none := by
  have hz : ∀ zz : HitZone, (match zz with
    | HitZone.head => (3/2 : ℚ)
    | HitZone.body => 1
    | HitZone.legs => 4/5) = zone_mult zz := fun zz => by cases zz <;> rfl
  unfold Fighter.receive_hit
  rw [hz z]
  dsimp only
  rw [if_pos hdmg]
  repeat' split
  all_goals simp_all [take_damage_is_blocking, FighterStats.apply_stun, hblock,
    Option.not_isSome_iff_eq_none]

lemma check_hit_against_no_action (f opponent : Fighter) (roll : ℤ) (crit_roll : ℚ)
    (h : f.current_action = none) : f.check_hit_against opponent roll crit_roll = (f, none) := by
  unfold Fighter.check_hit_against
  rw [h]

/-- C2 (amended): hits are evaluated sequentially, not from a pre-tick
snapshot: within CombatEngine.update, fighter 1's hit is fully processed —
including receive_hit's interruption, which strips a non-blocking defender of
its current action whenever the damage is positive — before fighter 2's hit
check runs against the resulting state, so fighter 2 registers no hit that
tick and the update reports a single-hit result rather than a trade. -/
theorem C2_sequential_not_snapshot (e : CombatEngine) (dt : ℚ)
    (fighter1 fighter2 : Fighter) (roll1 roll2 : ℤ) (crit1 crit2 : ℚ)
    (f1' : Fighter) (hi : HitInfo)
    (hbuf : e.hit_buffer = [])
    (hc1 : fighter1.check_hit_against fighter2 roll1 crit1 = (f1', some hi))
    (hblock : fighter2.stats.is_blocking = false)
    (hdmg : 0 < (fighter2.stats.take_damage (hi.damage * zone_mult hi.hit_zone)
      hi.is_crit hi.is_counter).2) :
    ∃ r, (CombatEngine.update e dt fighter1 fighter2 roll1 crit1 roll2 crit2).2.2.2
      = some (CombinedResult.hit r) := by
  have hcancel : (fighter2.receive_hit hi.damage hi.hit_zone f1'.movement.x hi.is_crit
      hi.is_counter).1.current_action = none :=
    receive_hit_cancel fighter2 hi.damage hi.hit_zone f1'.movement.x hi.is_crit hi.is_counter
      hblock hdmg
  unfold CombatEngine.update CombatEngine._update_hit_buffer
  rw [hc1]
  dsimp only
  rw [hbuf]
  unfold CombatEngine._process_hit
  simp only [List.map_nil, List.filter_nil, List.contains, List.elem_nil,
    Bool.false_eq_true, if_false]
  rw [check_hit_against_no_action _ _ roll2 crit2 hcancel]
  exact ⟨_, rfl⟩

unseal Rat.add Rat.mul Rat.inv Rat.sub in
theorem C2_sequential_not_snapshot_witness :
    ∃ r, (CombatEngine.update {} (1/60) trade_fighter1 trade_fighter2 10 1 10 1).2.2.2
      = some (CombinedResult.hit r) :=
  C2_sequential_not_snapshot {} (1/60) trade_fighter1 trade_fighter2 10 1 10 1
    { trade_fighter1 with current_action := some { trade_action false with has_hit := true } }
    { damage := 15, hit_zone := .head, hit_position := (435, 735/2), is_crit := false,
      is_counter := false, action := .jab }
    rfl (by decide) rfl (by decide)

/-! ### C1: health and stamina clamping under operation sequences -/

/-- The resource invariant of the spec: health and stamina within their
[0, max] ranges (with the defense modifier positive, as every modifier is a
positive multiplicative factor fixed for the match). -/
def StatsOk (s : FighterStats) : Prop :=
  0 < s.defense ∧ 0 ≤ s.health ∧ s.health ≤ (s.max_health : ℚ) ∧
  0 ≤ s.stamina ∧ s.stamina ≤ (s.max_stamina : ℚ)

/-- The stats-mutating operations named by the claim. -/
inductive FighterOp
  | op_take_damage (base_damage : ℚ) (is_crit is_counter : Bool)
  | op_use_stamina (amount : ℚ)
  | op_update (dt : ℚ) (is_idle : Bool)
  | op_execute (a : ActionType)

/-- Validity of an operation's inputs: damage rolls, stamina amounts and time
steps in the game are non-negative (damage comes from non-negative catalog
rolls and multipliers, costs from the catalog, dt from the clock). -/
def FighterOp.valid : FighterOp → Prop
  | .op_take_damage b _ _ => 0 ≤ b
  | .op_use_stamina amount => 0 ≤ amount
  | .op_update dt _ => 0 ≤ dt
  | .op_execute _ => True

instance (s : FighterStats) : Decidable (StatsOk s) := by
  unfold StatsOk; infer_instance

instance (op : FighterOp) : Decidable op.valid := by
  cases op with
  | op_take_damage b c k => exact inferInstanceAs (Decidable (0 ≤ b))
  | op_use_stamina amount => exact inferInstanceAs (Decidable (0 ≤ amount))
  | op_update dt i => exact inferInstanceAs (Decidable (0 ≤ dt))
  | op_execute a => exact inferInstanceAs (Decidable True)

/-- Apply one operation to a fighter. -/
def Fighter.apply_stats_op (f : Fighter) : FighterOp → Fighter
  | .op_take_damage b c k => { f with stats := (f.stats.take_damage b c k).1 }
  | .op_use_stamina amount => { f with stats := (f.stats.use_stamina amount).1 }
  | .op_update dt is_idle => { f with stats := f.stats.update dt is_idle }
  | .op_execute a => (f.execute_action a).1

lemma take_damage_fields (s : FighterStats) (b : ℚ) (c k : Bool) :
    (s.take_damage b c k).1.defense = s.defense ∧
    (s.take_damage b c k).1.stamina = s.stamina ∧
    (s.take_damage b c k).1.max_health = s.max_health ∧
    (s.take_damage b c k).1.max_stamina = s.max_stamina := by
  unfold FighterStats.take_damage
  repeat' split
  all_goals exact ⟨rfl, rfl, rfl, rfl⟩

lemma take_damage_actual_bounds (s : FighterStats) (b : ℚ) (c k : Bool)
    (hb : 0 ≤ b) (hdef : 0 < s.defense) (hh0 : 0 ≤ s.health) :
    0 ≤ (s.take_damage b c k).2 ∧ (s.take_damage b c k).2 ≤ s.health := by
  have c2 : (0:ℚ) ≤ CRIT_MULTIPLIER := by norm_num [CRIT_MULTIPLIER]
  have c3 : (0:ℚ) ≤ COUNTER_MULTIPLIER := by norm_num [COUNTER_MULTIPLIER]
  have c4 : (0:ℚ) ≤ 1 - BLOCK_REDUCTION := by norm_num [BLOCK_REDUCTION]
  have hd1 : (0:ℚ) ≤ (if c then b * CRIT_MULTIPLIER else b) := by
    split
    · exact mul_nonneg hb c2
    · exact hb
  have hd2 : (0:ℚ) ≤ (if k then (if c then b * CRIT_MULTIPLIER else b) * COUNTER_MULTIPLIER
      else (if c then b * CRIT_MULTIPLIER else b)) := by
    split
    · exact mul_nonneg hd1 c3
    · exact hd1
  have hd3 : (0:ℚ) ≤ (if k then (if c then b * CRIT_MULTIPLIER else b) * COUNTER_MULTIPLIER
      else (if c then b * CRIT_MULTIPLIER else b)) / s.defense := div_nonneg hd2 hdef.le
  unfold FighterStats.take_damage
  split
  · exact ⟨le_refl 0, hh0⟩
  · dsimp only
    split
    · exact ⟨le_min (mul_nonneg hd3 c4) hh0, min_le_right _ _⟩
    · exact ⟨le_min hd3 hh0, min_le_right _ _⟩

lemma take_damage_preserves (s : FighterStats) (b : ℚ) (c k : Bool)
    (hb : 0 ≤ b) (h : StatsOk s) : StatsOk (s.take_damage b c k).1 := by
  obtain ⟨hd, hh0, hhm, hs0, hsm⟩ := h
  obtain ⟨ha0, hah⟩ := take_damage_actual_bounds s b c k hb hd hh0
  have hf := take_damage_fields s b c k
  refine ⟨?_, ?_, ?_, ?_, ?_⟩
  · rw [hf.1]; exact hd
  · rw [take_damage_health]; linarith
  · rw [take_damage_health, hf.2.2.1]; linarith
  · rw [hf.2.1]; exact hs0
  · rw [hf.2.1, hf.2.2.2]; exact hsm

lemma use_stamina_preserves (s : FighterStats) (amount : ℚ)
    (ha : 0 ≤ amount) (h : StatsOk s) : StatsOk (s.use_stamina amount).1 := by
  obtain ⟨hd, hh0, hhm, hs0, hsm⟩ := h
  unfold FighterStats.use_stamina
  split
  · next hge => exact ⟨hd, hh0, hhm, by dsimp only; linarith, by dsimp only; linarith⟩
  · split
    · exact ⟨hd, hh0, hhm, le_refl 0, by dsimp only; linarith⟩
    · exact ⟨hd, hh0, hhm, hs0, hsm⟩

lemma stats_update_preserves (s : FighterStats) (dt : ℚ) (is_idle : Bool)
    (hdt : 0 ≤ dt) (h : StatsOk s) : StatsOk (s.update dt is_idle) := by
  obtain ⟨hd, hh0, hhm, hs0, hsm⟩ := h
  unfold FighterStats.update
  dsimp only
  repeat' split
  all_goals
    refine ⟨hd, hh0, hhm,
      le_min (by linarith) (add_nonneg hs0 (mul_nonneg ?_ hdt)), min_le_left _ _⟩
  all_goals norm_num [STAMINA_REGEN_RATE, STAMINA_REGEN_IDLE_BONUS]

lemma catalog_cost_nonneg (a : ActionType) : 0 ≤ (ACTION_DATA a).stamina_cost := by
  cases a <;> norm_num [ACTION_DATA]

lemma execute_preserves (f : Fighter) (a : ActionType) (h : StatsOk f.stats) :
    StatsOk (f.execute_action a).1.stats := by
  have hc := catalog_cost_nonneg a
  unfold Fighter.execute_action
  split
  · exact h
  · split
    · split
      · split
        · split
          · exact h
          · exact h
        · exact h
      · exact h
    · dsimp only [ACTION_DATA_get]
      split
      · exact use_stamina_preserves _ _ hc h
      · cases a <;> exact use_stamina_preserves _ _ hc h

/-- C1: a fighter whose health and stamina lie within [0, max] keeps them
there under every sequence of take_damage, use_stamina, update and
execute_action operations with in-game (non-negative) inputs, however long
or adversarial the sequence. -/
theorem C1_resources_clamped (f : Fighter) (ops : List FighterOp)
    (h : StatsOk f.stats) (hops : ∀ op ∈ ops, op.valid) :
    StatsOk ((ops.foldl Fighter.apply_stats_op f).stats) := by
  induction ops generalizing f with
  | nil => exact h
  | cons op rest ih =>
      simp only [List.foldl_cons]
      refine ih _ ?_ (fun o ho => hops o (List.mem_cons_of_mem _ ho))
      have hv := hops op (List.mem_cons_self _ _)
      cases op with
      | op_take_damage b c k => exact take_damage_preserves _ _ _ _ hv h
      | op_use_stamina amount => exact use_stamina_preserves _ _ hv h
      | op_update dt is_idle => exact stats_update_preserves _ _ _ hv h
      | op_execute a => exact execute_preserves _ _ h

unseal Rat.add Rat.mul Rat.inv Rat.sub in
theorem C1_resources_clamped_witness :
    StatsOk (([FighterOp.op_take_damage 500 true true, FighterOp.op_use_stamina 30,
        FighterOp.op_update (1/60) true, FighterOp.op_execute .uppercut,
        FighterOp.op_take_damage 37 false true].foldl
        Fighter.apply_stats_op ({} : Fighter)).stats) :=
  C1_resources_clamped {} _ (by decide) (by decide)

def C5_partial_fighter : Fighter := { stats := { stamina := 5 } }

unseal Rat.add Rat.mul Rat.inv Rat.sub in
theorem C5_execute_contract_witness :
    (C5_partial_fighter.execute_action .jab).2 = true ∧
    (C5_partial_fighter.execute_action .jab).1.stats.stamina = 0 ∧
    ∃ ca, (C5_partial_fighter.execute_action .jab).1.current_action = some ca ∧
      ca.action_type = ActionType.jab :=
  (C5_execute_contract C5_partial_fighter .jab).2.2 (by decide) rfl (by decide) (by decide)

unseal Rat.add Rat.mul Rat.inv Rat.sub in
theorem C9_substitution_on_fifth_witness :
    ∃ st dec, C9_repeat_state.get_action C9_gs 0 1 0 = some (st, dec) ∧
      dec.action = FallbackAI._get_alternative_action .dodge C9_gs.my_stamina ∧
      dec.reasoning = "Mixing it up" :=
  C9_substitution_on_fifth C9_repeat_state C9_gs 0 1 0 C9_repeat_state .dodge
    "Evading heavy attack" (4/5) rfl (by decide) rfl (by decide)

end SB
